import Mathlib

/-!
Shallow embedding of the Boundless fleet-operations backend core:
the Driver Float & Expense Ledger, the Vehicle Operational-Status
State Machine, and the Maintenance Projection Engine.

Sources embedded:
- `src/unnamed/part_001` (handlers: issueFloat, createExpense,
  updateExpenseStatus, deleteExpense, submitInspection, updateIssueStatus)
- `src/src/helpers/serviceIndicators.ts` (getIndicatorColor,
  calculateMaintenanceIndicators)

Modelling conventions:
- JavaScript numbers are modelled as `ℚ` (the handlers never rely on
  floating-point rounding for the properties considered here).
- ISO timestamp strings are modelled as an abstract `Nat` clock value
  passed in as `now`.
- Firestore collections are association lists `List (String × α)` keyed
  by document id; `getDoc`/`setDoc`/`modifyDoc`/`deleteDoc` model
  `getDocument`/`setDocument`/`updateDocument`/`deleteDocument` and the
  transactional handles (the transaction bodies are straight-line, so a
  committed transaction is the sequential application of its writes and
  an aborted one leaves the state unchanged).
- Store-generated fresh ids (`createDocRef`) are passed in as explicit
  arguments; freshness is hypothesised where a claim needs it.
- External I/O performed by the handlers (receipt upload to cloud
  storage, `parseFloat`) is passed in as an argument (the upload result
  as an `Option String`, `parseFloat` as a `String → Option ℚ`, `none`
  standing for NaN).
-/

namespace Boundless

/-- User roles, from `type Role` in the handlers plus the `maintenance`
role used in list endpoints. -/
inductive Role where
  | driver
  | ops
  | owner
  | tour_manager
  | maintenance
deriving DecidableEq, Repr

/-- Authenticated request context, from `ensureUser`. -/
structure User where
  uid : String
  organisationId : String
  role : Role
deriving DecidableEq, Repr

/-- Untyped JavaScript values as they appear in inspection results and
request bodies: booleans, numbers, strings, the tyre-measurement array
produced by the transform, and null/undefined. -/
inductive JSVal where
  | bool (b : Bool)
  | num (q : ℚ)
  | str (s : String)
  | tyreArr (ms : List (String × ℚ))
  | null
deriving DecidableEq, Repr

/-- `requireRole` from the handlers: membership test of the caller role
in the allowed list. -/
def requireRole (role : Role) (allowed : List Role) : Bool :=
  allowed.contains role

/-- Errors surfaced by the handlers (each corresponds to one early
`res.status(4xx)` return or one thrown transaction error). -/
inductive ApiError where
  | forbidden
  | invalidPayload
  | notFound
  | conflictingActiveFloat
  | floatRequired
  | floatMissing
  | floatInvalid
  | insufficientFunds
  | alreadyProcessed
  | invalidAction
  | invalidStatus
  | invalidType
  | missingFields
  | vehicleMismatch
deriving DecidableEq, Repr

/-- `getDocument` / `transaction.get`: first association-list entry with
the given id. -/
def getDoc {α : Type} : List (String × α) → String → Option α
  | [], _ => none
  | p :: rest, id => if p.1 = id then some p.2 else getDoc rest id

/-- Key-membership test used by `setDoc` to decide between overwrite and
append. -/
def containsId {α : Type} : List (String × α) → String → Bool
  | [], _ => false
  | p :: rest, id => if p.1 = id then true else containsId rest id

/-- Overwrite pass of `setDoc`: replace the payload of the entries with
the given id, leaving everything else in place. -/
def replaceDoc {α : Type} : List (String × α) → String → α → List (String × α)
  | [], _, _ => []
  | p :: rest, id, doc => (if p.1 = id then (p.1, doc) else p) :: replaceDoc rest id doc

/-- `setDocument` / `transaction.set`: overwrite the entries with the
given id when present, otherwise append a fresh entry. -/
def setDoc {α : Type} (coll : List (String × α)) (id : String) (doc : α) :
    List (String × α) :=
  if containsId coll id then replaceDoc coll id doc else coll ++ [(id, doc)]

/-- `updateDocument` / `transaction.update`: apply a field patch to the
entries with the given id (no-op when the id is absent). -/
def modifyDoc {α : Type} : List (String × α) → String → (α → α) → List (String × α)
  | [], _, _ => []
  | p :: rest, id, f => (if p.1 = id then (p.1, f p.2) else p) :: modifyDoc rest id f

/-- `transaction.delete` / `deleteDocument`: remove the entries with the
given id. -/
def deleteDoc {α : Type} : List (String × α) → String → List (String × α)
  | [], _ => []
  | p :: rest, id => if p.1 = id then deleteDoc rest id else p :: deleteDoc rest id

/-- A float document, from the fields written by `issueFloat`. -/
structure FloatDoc where
  organisationId : String
  driverId : String
  tourId : Option String
  originalAmount : ℚ
  remainingAmount : ℚ
  active : Bool
  issuedBy : String
  message : Option String
  closedAt : Option Nat
  createdAt : Nat
  updatedAt : Nat
deriving DecidableEq, Repr

/-- An expense document, from the fields written by `createExpense`. -/
structure ExpenseDoc where
  organisationId : String
  driverId : String
  floatId : Option String
  tourId : Option String
  category : String
  amount : ℚ
  receiptUrl : Option String
  description : String
  vehicleLicence : String
  trailerLicence : String
  driverName : String
  status : String
  approvedBy : Option String
  approvedAt : Option Nat
  createdAt : Nat
  updatedAt : Nat
deriving DecidableEq, Repr

/-- The tour fields the embedded handlers read. -/
structure TourDoc where
  organisationId : String
  driverId : Option String
  vehicleId : Option String
deriving DecidableEq, Repr

/-- The vehicle fields the embedded handlers read or write. -/
structure VehicleDoc where
  organisationId : String
  status : String
  licenceNumber : Option String
  trailerLicence : Option String
  currentDriverName : Option String
  latest_odometer : Option ℚ
  updatedAt : Nat
deriving DecidableEq, Repr

/-- An issue document, from the fields written by `submitInspection` and
`createIssue`. -/
structure IssueDoc where
  organisationId : String
  vehicleId : String
  driverId : String
  tourId : Option String
  severity : String
  description : String
  imageUrl : Option String
  status : String
  reportedAt : Option Nat
  createdAt : Nat
  updatedAt : Nat
deriving DecidableEq, Repr

/-- One submitted inspection result, from `type InspectionResult`. -/
structure InspectionResult where
  key : String
  value : JSVal
  imageUrl : Option String
deriving DecidableEq, Repr

/-- One checklist entry of an inspection template.  `safetyCritical` is
an `Option Bool` because the source guards with
`'safetyCritical' in item && item.safetyCritical`: the field may be
absent, and absent or `false` both fail the guard. -/
structure TemplateItem where
  key : String
  safetyCritical : Option Bool
deriving DecidableEq, Repr

/-- An inspection template, from `inspection_types` (the constant table
itself lives outside the provided sources, so templates are passed in as
data; the handler logic over them is embedded from the source). -/
structure Template where
  type : String
  items : List TemplateItem
deriving DecidableEq, Repr

/-- An inspection document, from the fields written by
`submitInspection`. -/
structure InspectionDoc where
  tourId : Option String
  vehicleId : Option String
  organisationId : String
  driverId : String
  type : String
  results : List InspectionResult
  safetyFailures : List TemplateItem
  createdAt : Nat
  updatedAt : Nat
deriving DecidableEq, Repr

/-- The document-store state: one association list per collection used
by the embedded handlers. -/
structure DB where
  floats : List (String × FloatDoc)
  expenses : List (String × ExpenseDoc)
  tours : List (String × TourDoc)
  vehicles : List (String × VehicleDoc)
  issues : List (String × IssueDoc)
  inspections : List (String × InspectionDoc)
deriving DecidableEq, Repr

/-- The observable result of one handler call: the HTTP-level response
(success payload or surfaced error) together with the store state after
the call.  Handlers that return early leave the state untouched; an
aborted transaction also leaves the state untouched. -/
structure Outcome (α : Type) where
  res : Except ApiError α
  db : DB
deriving Repr

/-- Request body of `issueFloat` (`req.body`).  `amountCents` is kept as
a raw JavaScript value because the handler checks
`typeof amountCents !== 'number'` itself. -/
structure IssueFloatBody where
  driverId : Option String
  amountCents : JSVal
  tourId : Option String
  message : Option String
deriving DecidableEq, Repr

/-- The `closedAt`/`active` patch `issueFloat` applies to each active
float of the driver on the owner override path. -/
def closeFloatPatch (now : Nat) (f : FloatDoc) : FloatDoc :=
  { f with active := false, closedAt := some now, updatedAt := now }

/-- The owner-override loop of `issueFloat`:
`for (const float of activeFloats) updateDocument('floats', float.id, ...)`. -/
def closeAll (now : Nat) (fs : List (String × FloatDoc))
    (l : List (String × FloatDoc)) : List (String × FloatDoc) :=
  l.foldl (fun acc p => modifyDoc acc p.1 (closeFloatPatch now)) fs

/-- The `active = true` floats of the given driver in the caller's
organisation: the `queryDocumentsByFilters('floats', ...)` call of
`issueFloat`. -/
def activeFloatsFor (db : DB) (organisationId driverId : String) :
    List (String × FloatDoc) :=
  db.floats.filter (fun p =>
    decide (p.2.organisationId = organisationId ∧ p.2.driverId = driverId ∧
      p.2.active = true))

/-- `issueFloat` from `src/unnamed/part_001`: role gate, payload
validation (`!driverId || typeof amountCents !== 'number' ||
amountCents <= 0`), conflicting-active-float check with the owner
override that closes every active float of the driver, then creation of
the new float with `remainingAmount = originalAmount = amountCents`.
`newFloatId` stands for the id minted by `createDocRef('floats')`. -/
def issueFloat (user : User) (body : IssueFloatBody) (newFloatId : String)
    (now : Nat) (db : DB) : Outcome String :=
  if ¬ requireRole user.role [.ops, .owner, .tour_manager] then
    ⟨.error .forbidden, db⟩
  else
    match body.amountCents with
    | .num amountCents =>
      if body.driverId.getD "" = "" ∨ amountCents ≤ 0 then ⟨.error .invalidPayload, db⟩
      else
        let driverId := body.driverId.getD ""
        let activeFloats := activeFloatsFor db user.organisationId driverId
        if activeFloats.length > 0 ∧ user.role ≠ .owner then
          ⟨.error .conflictingActiveFloat, db⟩
        else
          let floats1 :=
            if activeFloats.length > 0 ∧ user.role = .owner then
              closeAll now db.floats activeFloats
            else db.floats
          let newFloat : FloatDoc :=
            { organisationId := user.organisationId
              driverId := driverId
              tourId := body.tourId
              originalAmount := amountCents
              remainingAmount := amountCents
              active := true
              issuedBy := user.uid
              message := if body.message.getD "" = "" then none else body.message
              closedAt := none
              createdAt := now
              updatedAt := now }
          ⟨.ok newFloatId, { db with floats := setDoc floats1 newFloatId newFloat }⟩
    | _ => ⟨.error .invalidPayload, db⟩

/-- Request body of `createExpense` (`req.body`), after the receipt
upload: `receiptDownloadUrl` stands for the uploaded receipt URL (`none`
when no receipt was sent), since the upload itself is external I/O. -/
structure ExpenseBody where
  category : String
  amountCents : ℚ
  tourId : Option String
  floatId : Option String
  description : Option String
  receiptDownloadUrl : Option String
deriving DecidableEq, Repr

/-- The reporting metadata `createExpense` captures before its
transaction: licence/trailer/driver labels read through
`tours → vehicles`, each defaulting to the empty string. -/
def expenseMeta (db : DB) (tourId : Option String) : String × String × String :=
  match tourId with
  | some tid =>
    match getDoc db.tours tid with
    | some tour =>
      match tour.vehicleId with
      | some vid =>
        match getDoc db.vehicles vid with
        | some vehicle =>
          (vehicle.licenceNumber.getD "", vehicle.trailerLicence.getD "",
            vehicle.currentDriverName.getD "")
        | none => ("", "", "")
      | none => ("", "", "")
    | none => ("", "", "")
  | none => ("", "", "")

/-- `createExpense` from `src/unnamed/part_001`: driver-role gate,
`Float ID required` check, metadata capture, then the atomic
`runDbTransaction` body — fresh float read, organisation/driver
authorisation, the funds check `floatData.remainingAmount < amountCents`,
creation of the pending expense, and the balance update by
`adjustment = category === 'WIFI' ? amountCents : -amountCents`.
A thrown transaction error aborts the transaction, so every error
outcome leaves the store unchanged.  `newExpenseId` stands for the id
minted by `createDocRef('expenses')`. -/
def createExpense (user : User) (body : ExpenseBody) (newExpenseId : String)
    (now : Nat) (db : DB) : Outcome Unit :=
  if ¬ requireRole user.role [.driver] then ⟨.error .forbidden, db⟩
  else if body.floatId.getD "" = "" then ⟨.error .floatRequired, db⟩
  else
    let floatId := body.floatId.getD ""
    let meta := expenseMeta db body.tourId
    match getDoc db.floats floatId with
    | none => ⟨.error .floatMissing, db⟩
    | some floatData =>
      if floatData.organisationId ≠ user.organisationId ∨
          floatData.driverId ≠ user.uid then
        ⟨.error .floatInvalid, db⟩
      else if floatData.remainingAmount < body.amountCents then
        ⟨.error .insufficientFunds, db⟩
      else
        let adjustment :=
          if body.category = "WIFI" then body.amountCents else -body.amountCents
        let expense : ExpenseDoc :=
          { organisationId := user.organisationId
            driverId := user.uid
            floatId := some floatId
            tourId := body.tourId
            category := body.category
            amount := body.amountCents
            receiptUrl := body.receiptDownloadUrl
            description := body.description.getD ""
            vehicleLicence := meta.1
            trailerLicence := meta.2.1
            driverName := meta.2.2
            status := "pending"
            approvedBy := none
            approvedAt := none
            createdAt := now
            updatedAt := now }
        ⟨.ok (), { db with
          expenses := setDoc db.expenses newExpenseId expense
          floats := modifyDoc db.floats floatId (fun f =>
            { f with remainingAmount := f.remainingAmount + adjustment
                     updatedAt := now }) }⟩

/-- `updateExpenseStatus` from `src/unnamed/part_001`: ops/owner role
gate, action validation, lookup, cross-organisation check, the
`AlreadyProcessed` guard on non-`pending` status, and the status patch
recording approver and timestamps. -/
def updateExpenseStatus (user : User) (expenseId : String) (action : String)
    (now : Nat) (db : DB) : Outcome String :=
  if ¬ requireRole user.role [.ops, .owner] then ⟨.error .forbidden, db⟩
  else if ¬ (action = "approve" ∨ action = "reject") then ⟨.error .invalidAction, db⟩
  else
    match getDoc db.expenses expenseId with
    | none => ⟨.error .notFound, db⟩
    | some expense =>
      if expense.organisationId ≠ user.organisationId then ⟨.error .forbidden, db⟩
      else if expense.status ≠ "pending" then ⟨.error .alreadyProcessed, db⟩
      else
        ⟨.ok expenseId, { db with
          expenses := modifyDoc db.expenses expenseId (fun e =>
            { e with status := if action = "approve" then "approved" else "rejected"
                     approvedBy := some user.uid
                     approvedAt := some now
                     updatedAt := now }) }⟩

/-- `deleteExpense` from `src/unnamed/part_001`: owner role gate, lookup,
cross-organisation check, then the atomic transaction — if the expense
references a float that still exists in the caller's organisation, apply
the sign-flipped adjustment
`expense.category === 'WIFI' ? -(expense.amount || 0) : (expense.amount || 0)`
to its remaining amount, and delete the expense document either way. -/
def deleteExpense (user : User) (expenseId : String) (now : Nat) (db : DB) :
    Outcome Unit :=
  if ¬ requireRole user.role [.owner] then ⟨.error .forbidden, db⟩
  else
    match getDoc db.expenses expenseId with
    | none => ⟨.error .notFound, db⟩
    | some expense =>
      if expense.organisationId ≠ user.organisationId then ⟨.error .forbidden, db⟩
      else
        let db1 :=
          match expense.floatId with
          | some fid =>
            match getDoc db.floats fid with
            | some floatData =>
              if floatData.organisationId = user.organisationId then
                let reverseAdjustment :=
                  if expense.category = "WIFI" then -expense.amount else expense.amount
                { db with floats := modifyDoc db.floats fid (fun f =>
                    { f with remainingAmount := f.remainingAmount + reverseAdjustment
                             updatedAt := now }) }
              else db
            | none => db
          | none => db
        ⟨.ok (), { db1 with expenses := deleteDoc db1.expenses expenseId }⟩

/-- Indicator colors, from the `'green' | 'amber' | 'red'` union in
`serviceIndicators.ts`. -/
inductive Color where
  | green
  | amber
  | red
deriving DecidableEq, Repr

/-- `getIndicatorColor` from `serviceIndicators.ts`, including the two
textually distinct but equivalent red branches. -/
def getIndicatorColor (remainingKm : ℚ) : Color :=
  if remainingKm < 0 then .red
  else if remainingKm < 1000 then .red
  else if remainingKm < 5000 then .amber
  else .green

/-- Per-category indicator record, from `interface ServiceIndicator`. -/
structure ServiceIndicator where
  color : Color
  remainingKm : ℚ
  cumulativeKm : ℚ
deriving DecidableEq, Repr

/-- Per-tour record of all four categories, from
`interface MaintenanceIndicators`. -/
structure MaintenanceIndicators where
  tyres : ServiceIndicator
  wheels : ServiceIndicator
  service : ServiceIndicator
  brakes : ServiceIndicator
deriving DecidableEq, Repr

/-- The `intervals` argument of `calculateMaintenanceIndicators`. -/
structure Intervals where
  tyres : ℚ
  alignmentBalancing : ℚ
  service : ℚ
  brakes : ℚ
deriving DecidableEq, Repr

/-- The `lastServiceOdos` argument of `calculateMaintenanceIndicators`. -/
structure LastServiceOdos where
  tyres : ℚ
  wheels : ℚ
  service : ℚ
  brakes : ℚ
deriving DecidableEq, Repr

/-- One element of the `tours` argument.  `startTime` models
`new Date(tour.startDate).getTime()`, the numeric value the comparator
sorts by; `estimated_km` is the optional per-tour distance. -/
structure TourInput where
  id : String
  startTime : ℚ
  estimated_km : Option ℚ
deriving DecidableEq, Repr

/-- `tour.estimated_km || 0`: the distance added for one tour (`0` when
the field is absent; `0 || 0` is also `0`, so the JavaScript falsy
default coincides with `getD 0` on `ℚ`). -/
def estOr0 (t : TourInput) : ℚ :=
  t.estimated_km.getD 0

/-- Insertion of one element into a sorted list, keeping it before the
first element it compares `le` to. -/
def orderedInsert {α : Type} (le : α → α → Bool) (x : α) :
    List α → List α
  | [] => [x]
  | y :: ys => if le x y then x :: y :: ys else y :: orderedInsert le x ys

/-- Stable sort modelling `[...tours].sort((a, b) => aTime - bTime)`:
`Array.prototype.sort` is stable, and a stable sort of a list under a
total preorder is unique, so insertion sort produces the same list the
source's sort does. -/
def stableSort {α : Type} (le : α → α → Bool) : List α → List α
  | [] => []
  | x :: xs => orderedInsert le x (stableSort le xs)

/-- The per-tour record built inside the loop body of
`calculateMaintenanceIndicators` for cumulative distance `cum`. -/
def mkIndicators (intervals : Intervals) (lastServiceOdos : LastServiceOdos)
    (cum : ℚ) : MaintenanceIndicators :=
  { tyres :=
      { color := getIndicatorColor ((lastServiceOdos.tyres + intervals.tyres) - cum)
        remainingKm := (lastServiceOdos.tyres + intervals.tyres) - cum
        cumulativeKm := cum }
    wheels :=
      { color := getIndicatorColor
          ((lastServiceOdos.wheels + intervals.alignmentBalancing) - cum)
        remainingKm := (lastServiceOdos.wheels + intervals.alignmentBalancing) - cum
        cumulativeKm := cum }
    service :=
      { color := getIndicatorColor
          ((lastServiceOdos.service + intervals.service) - cum)
        remainingKm := (lastServiceOdos.service + intervals.service) - cum
        cumulativeKm := cum }
    brakes :=
      { color := getIndicatorColor ((lastServiceOdos.brakes + intervals.brakes) - cum)
        remainingKm := (lastServiceOdos.brakes + intervals.brakes) - cum
        cumulativeKm := cum } }

/-- The `for (const tour of sortedTours)` loop of
`calculateMaintenanceIndicators`: walk the sorted tours threading the
running cumulative distance, emitting one keyed record per tour. -/
def processTours (intervals : Intervals) (lastServiceOdos : LastServiceOdos) :
    ℚ → List TourInput → List (String × MaintenanceIndicators)
  | _, [] => []
  | cum, t :: rest =>
    let cum2 := cum + estOr0 t
    (t.id, mkIndicators intervals lastServiceOdos cum2) ::
      processTours intervals lastServiceOdos cum2 rest

/-- `calculateMaintenanceIndicators` from `serviceIndicators.ts`: sort
the tours by start date, seed the cumulative distance at the current
odometer, and emit the four per-category indicators for every tour. -/
def calculateMaintenanceIndicators (tours : List TourInput)
    (currentOdometer : ℚ) (intervals : Intervals)
    (lastServiceOdos : LastServiceOdos) : List (String × MaintenanceIndicators) :=
  processTours intervals lastServiceOdos currentOdometer
    (stableSort (fun a b => a.startTime ≤ b.startTime) tours)

/-- Modelled from the spec: the `VehicleStatus` enumeration lives in
`src/dtos/types`, which is not among the provided sources.  The spec
gives the states `ready`, `issue`, `maintenance_required`,
`out_of_service`, and `submitInspection` writes the literal `'issue'`
directly, so the enum values are the corresponding lower-case strings:
`VehicleStatus.ISSUE = "issue"` and `VehicleStatus.READY = "ready"`. -/
def VehicleStatusISSUE : String := "issue"

/-- Modelled from the spec: see `VehicleStatusISSUE`. -/
def VehicleStatusREADY : String := "ready"

/-- The field labels of the tyre-measurement transform in
`submitInspection`. -/
def tyreFields : List String :=
  ["left_front", "right_front", "left_rear_inner", "left_rear_outer",
    "right_rear_inner", "right_rear_outer"]

/-- `values[index] || 0` over the parsed comma-separated tyre readings:
a missing entry (`undefined`), an unparsable entry (NaN) and `0` all
yield `0`. -/
def tyreValueAt (values : List (Option ℚ)) (i : Nat) : ℚ :=
  match values.getD i none with
  | some q => q
  | none => 0

/-- The per-result transform of `submitInspection`: a string-valued
`tyre_tread_depth` result is split on commas, parsed, and replaced by a
position-labelled measurement array; every other result passes through
unchanged.  `parseQ` stands for JavaScript `parseFloat` (`none` = NaN). -/
def transformResult (parseQ : String → Option ℚ) (r : InspectionResult) :
    InspectionResult :=
  if r.key = "tyre_tread_depth" then
    match r.value with
    | .str s =>
      let values := (s.splitOn ",").map (fun v => parseQ v.trim)
      let tyreMeasurements := (List.range tyreFields.length).map (fun i =>
        (tyreFields.getD i "", tyreValueAt values i))
      { r with value := .tyreArr tyreMeasurements }
    | _ => r
  else r

/-- The `safetyFailures` computation of `submitInspection`: the
safety-critical template items whose first matching transformed result
is strictly `=== false`, or that have no matching result at all. -/
def safetyFailuresOf (template : Template)
    (transformedResults : List InspectionResult) : List TemplateItem :=
  (template.items.filter (fun item => item.safetyCritical = some true)).filter
    (fun item =>
      match transformedResults.find? (fun r => r.key = item.key) with
      | some m => m.value = JSVal.bool false
      | none => true)

/-- The `if (tourId) { ... }` validation block of `submitInspection`:
look the tour up and require it to belong to the caller's organisation. -/
def tourGuard (db : DB) (user : User) : Option String → Except ApiError (Option TourDoc)
  | none => .ok none
  | some tid =>
    match getDoc db.tours tid with
    | none => .error .notFound
    | some tour =>
      if tour.organisationId ≠ user.organisationId then .error .forbidden
      else .ok (some tour)

/-- The `if (vehicleId) { ... }` validation block of `submitInspection`:
look the vehicle up, require it to belong to the caller's organisation,
and when a tour is present require `tour.vehicleId === vehicleId`. -/
def vehicleGuard (db : DB) (user : User) (tour : Option TourDoc) :
    Option String → Except ApiError (Option VehicleDoc)
  | none => .ok none
  | some vid =>
    match getDoc db.vehicles vid with
    | none => .error .notFound
    | some vehicle =>
      if vehicle.organisationId ≠ user.organisationId then .error .forbidden
      else
        match tour with
        | some t => if t.vehicleId ≠ some vid then .error .vehicleMismatch
            else .ok (some vehicle)
        | none => .ok (some vehicle)

/-- The odometer side update of `submitInspection`: when a vehicle is
referenced and a string-valued `odometer_reading` result parses to a
number, patch the vehicle's `latest_odometer`. -/
def odoUpdate (parseQ : String → Option ℚ) (results : List InspectionResult)
    (vehicleId : Option String) (now : Nat) (db : DB) : DB :=
  match vehicleId with
  | none => db
  | some vid =>
    match results.find? (fun r => r.key = "odometer_reading") with
    | none => db
    | some r =>
      match r.value with
      | .str s =>
        match parseQ s with
        | some q =>
          { db with vehicles := modifyDoc db.vehicles vid (fun v =>
              { v with latest_odometer := some q, updatedAt := now }) }
        | none => db
      | _ => db

/-- Request body of `submitInspection` (`req.body`). -/
structure InspectionBody where
  tourId : Option String
  vehicleId : Option String
  type : String
  results : List InspectionResult
deriving DecidableEq, Repr

/-- `submitInspection` from `src/unnamed/part_001`: driver-role gate,
template lookup by type, tour and vehicle validation, the tyre-result
transform, the `safetyFailures` partition, persistence of the inspection
document under the composed id, the odometer update, and — when a
safety-critical item failed and a vehicle is referenced — creation of
one `high`-severity issue listing the failing keys plus the vehicle
status write to `'issue'`.  (`results` arrives as a typed list, so the
`Array.isArray` check always passes.)  `newIssueId` stands for the id
minted by `createDocRef('issues')`. -/
def submitInspection (inspectionTypes : List Template)
    (parseQ : String → Option ℚ) (user : User) (body : InspectionBody)
    (newIssueId : String) (now : Nat) (db : DB) : Outcome String :=
  if ¬ requireRole user.role [.driver] then ⟨.error .forbidden, db⟩
  else if body.type = "" then ⟨.error .missingFields, db⟩
  else
    match inspectionTypes.find? (fun t => t.type = body.type) with
    | none => ⟨.error .invalidType, db⟩
    | some template =>
      match tourGuard db user body.tourId with
      | .error e => ⟨.error e, db⟩
      | .ok tour =>
        match vehicleGuard db user tour body.vehicleId with
        | .error e => ⟨.error e, db⟩
        | .ok _vehicle =>
          let inspectionId :=
            body.tourId.getD "no_tour" ++ "_" ++ body.type ++ "_" ++ user.uid
          let transformedResults := body.results.map (transformResult parseQ)
          let safetyFailures := safetyFailuresOf template transformedResults
          let inspectionDoc : InspectionDoc :=
            { tourId := body.tourId
              vehicleId := body.vehicleId
              organisationId := user.organisationId
              driverId := user.uid
              type := body.type
              results := transformedResults
              safetyFailures := safetyFailures
              createdAt := now
              updatedAt := now }
          let db1 :=
            { db with inspections := setDoc db.inspections inspectionId inspectionDoc }
          let db2 := odoUpdate parseQ body.results body.vehicleId now db1
          let db3 :=
            if safetyFailures.length > 0 then
              match body.vehicleId with
              | some vid =>
                let issueDoc : IssueDoc :=
                  { organisationId := user.organisationId
                    vehicleId := vid
                    driverId := user.uid
                    tourId := body.tourId
                    severity := "high"
                    description := "Safety critical items failed: " ++
                      String.intercalate ", " (safetyFailures.map (fun i => i.key))
                    imageUrl := none
                    status := "reported"
                    reportedAt := none
                    createdAt := now
                    updatedAt := now }
                let db2a := { db2 with issues := setDoc db2.issues newIssueId issueDoc }
                { db2a with vehicles := modifyDoc db2a.vehicles vid (fun v =>
                    { v with status := VehicleStatusISSUE, updatedAt := now }) }
              | none => db2
            else db2
          ⟨.ok inspectionId, db3⟩

/-- Request body of `updateIssueStatus` (`req.body`). -/
structure IssueStatusBody where
  status : String
  notes : Option String
deriving DecidableEq, Repr

/-- The issue statuses `updateIssueStatus` accepts
(`allowedStatuses`). -/
def allowedIssueStatuses : List String :=
  ["reported", "scheduled", "in_progress", "done"]

/-- The patch `updateIssueStatus` applies to the issue: the new status,
the timestamp, and — when notes were sent — the notes appended to the
description (the `toLocaleString()` timestamp is rendered from the
abstract clock). -/
def issueStatusPatch (body : IssueStatusBody) (now : Nat) (i : IssueDoc) :
    IssueDoc :=
  if body.notes.getD "" = "" then { i with status := body.status, updatedAt := now }
  else
    { i with
      status := body.status
      updatedAt := now
      description := i.description ++ "\n\n[" ++ toString now ++ " - Status: " ++
        body.status ++ "]\n" ++ body.notes.getD "" }

/-- The open-issue query of `updateIssueStatus`: all issues of the same
organisation and vehicle whose status is not `done`, evaluated after the
issue's own update. -/
def openIssuesFor (issues : List (String × IssueDoc))
    (organisationId vehicleId : String) : List (String × IssueDoc) :=
  issues.filter (fun p =>
    decide (p.2.organisationId = organisationId ∧ p.2.vehicleId = vehicleId ∧
      p.2.status ≠ "done"))

/-- `updateIssueStatus` from `src/unnamed/part_001`: ops/owner role gate,
status validation, lookup, cross-organisation check, the issue patch,
and — when the new status is `done` — the open-issue query for the same
organisation and vehicle, setting the vehicle back to `ready` exactly
when that query is empty. -/
def updateIssueStatus (user : User) (issueId : String) (body : IssueStatusBody)
    (now : Nat) (db : DB) : Outcome String :=
  if ¬ requireRole user.role [.ops, .owner] then ⟨.error .forbidden, db⟩
  else if ¬ allowedIssueStatuses.contains body.status then
    ⟨.error .invalidStatus, db⟩
  else
    match getDoc db.issues issueId with
    | none => ⟨.error .notFound, db⟩
    | some issue =>
      if issue.organisationId ≠ user.organisationId then ⟨.error .forbidden, db⟩
      else
        let db1 := { db with
          issues := modifyDoc db.issues issueId (issueStatusPatch body now) }
        let db2 :=
          if body.status = "done" then
            if (openIssuesFor db1.issues user.organisationId issue.vehicleId).length
                = 0 then
              { db1 with vehicles := modifyDoc db1.vehicles issue.vehicleId (fun v =>
                  { v with status := VehicleStatusREADY, updatedAt := now }) }
            else db1
          else db1
        ⟨.ok issueId, db2⟩

/-- Fixture: a float with a zero remaining balance. -/
def float0 : FloatDoc :=
  { organisationId := "o1"
    driverId := "d1"
    tourId := none
    originalAmount := 0
    remainingAmount := 0
    active := true
    issuedBy := "owner1"
    message := none
    closedAt := none
    createdAt := 0
    updatedAt := 0 }

/-- Fixture: a store holding only `float0` under id `f1`. -/
def db0 : DB :=
  { floats := [("f1", float0)]
    expenses := []
    tours := []
    vehicles := []
    issues := []
    inspections := [] }

/-- Fixture: the driver owning `float0`. -/
def u1 : User := { uid := "d1", organisationId := "o1", role := .driver }

/-- Fixture: an owner in the same organisation. -/
def uo : User := { uid := "owner1", organisationId := "o1", role := .owner }

/-- Fixture: a reimbursement-category expense request of 100 cents. -/
def wifiBody : ExpenseBody :=
  { category := "WIFI"
    amountCents := 100
    tourId := none
    floatId := some "f1"
    description := none
    receiptDownloadUrl := none }

/-- Fixture: an empty store. -/
def emptyDB : DB :=
  { floats := []
    expenses := []
    tours := []
    vehicles := []
    issues := []
    inspections := [] }

/-- Fixture: a float request for a fractional amount of half a cent. -/
def halfBody : IssueFloatBody :=
  { driverId := some "d9"
    amountCents := .num (1 / 2)
    tourId := none
    message := none }

/-- Fixture: a float with remaining balance 1. -/
def float1 : FloatDoc :=
  { float0 with originalAmount := 1, remainingAmount := 1 }

/-- Fixture: a store holding only `float1` under id `f1`. -/
def db1 : DB :=
  { db0 with floats := [("f1", float1)] }

/-- Fixture: a reimbursement-category expense request of 1 cent. -/
def wifi1Body : ExpenseBody :=
  { wifiBody with amountCents := 1 }

/-- Fixture: a debit expense request of 2 cents. -/
def food2Body : ExpenseBody :=
  { wifiBody with category := "FOOD", amountCents := 2 }

/-- Fixture: the expense document `wifi1Body` commits to at time 1. -/
def expWifi1 : ExpenseDoc :=
  { organisationId := "o1"
    driverId := "d1"
    floatId := some "f1"
    tourId := none
    category := "WIFI"
    amount := 1
    receiptUrl := none
    description := ""
    vehicleLicence := ""
    trailerLicence := ""
    driverName := ""
    status := "pending"
    approvedBy := none
    approvedAt := none
    createdAt := 1
    updatedAt := 1 }

/-- Fixture: the expense document `food2Body` commits to at time 2. -/
def expFood2 : ExpenseDoc :=
  { expWifi1 with category := "FOOD", amount := 2, createdAt := 2, updatedAt := 2 }

/-- Fixture: the store after committing `wifi1Body` against `db1`. -/
def dbA : DB :=
  { floats := [("f1", { float1 with remainingAmount := 2, updatedAt := 1 })]
    expenses := [("e1", expWifi1)]
    tours := []
    vehicles := []
    issues := []
    inspections := [] }

/-- Fixture: the store after additionally committing `food2Body`. -/
def dbB : DB :=
  { dbA with
    floats := [("f1", { float1 with remainingAmount := 0, updatedAt := 2 })]
    expenses := [("e1", expWifi1), ("e2", expFood2)] }

/-- Fixture: a debit-category expense request with a negative amount. -/
def negBody : ExpenseBody :=
  { wifiBody with category := "FOOD", amountCents := -50 }

/-- Fixture: a float issued over 5000 cents. -/
def float5000 : FloatDoc :=
  { float0 with originalAmount := 5000, remainingAmount := 5000 }

/-- Fixture: a store holding only `float5000` under id `f1`. -/
def db5000 : DB :=
  { db0 with floats := [("f1", float5000)] }

/-- Fixture: a non-reimbursement expense request of 1200 cents. -/
def body1200 : ExpenseBody :=
  { wifiBody with category := "FUEL", amountCents := 1200 }

/-- Fixture: a float request for amount zero. -/
def zeroBody : IssueFloatBody :=
  { halfBody with amountCents := .num 0 }

/-- Fixture: a well-formed float request for driver `d1` over 300. -/
def ownerBody : IssueFloatBody :=
  { driverId := some "d1"
    amountCents := .num 300
    tourId := none
    message := none }

/-- Fixture: an ops-role user in organisation `o1`. -/
def uops : User := { uid := "ops1", organisationId := "o1", role := .ops }

/-- Fixture: a template with one safety-critical item. -/
def tplBrakes : Template :=
  { type := "pre_trip", items := [{ key := "brakes_ok", safetyCritical := some true }] }

/-- Fixture: a ready vehicle in organisation `o1`. -/
def vehicle0 : VehicleDoc :=
  { organisationId := "o1"
    status := "ready"
    licenceNumber := none
    trailerLicence := none
    currentDriverName := none
    latest_odometer := none
    updatedAt := 0 }

/-- Fixture: a store holding only `vehicle0` under id `v1`. -/
def dbVeh : DB := { emptyDB with vehicles := [("v1", vehicle0)] }

/-- Fixture: an inspection submission for `v1` with no results at all. -/
def inspBody : InspectionBody :=
  { tourId := none, vehicleId := some "v1", type := "pre_trip", results := [] }

/-- Fixture: an open issue on vehicle `v1`. -/
def issueA : IssueDoc :=
  { organisationId := "o1"
    vehicleId := "v1"
    driverId := "d1"
    tourId := none
    severity := "high"
    description := "a"
    imageUrl := none
    status := "reported"
    reportedAt := none
    createdAt := 0
    updatedAt := 0 }

/-- Fixture: a second open issue on the same vehicle. -/
def issueB : IssueDoc := { issueA with description := "b" }

/-- Fixture: `vehicle0` while in the `issue` state. -/
def vehicleIss : VehicleDoc := { vehicle0 with status := "issue" }

/-- Fixture: a store with two open issues on `v1`. -/
def dbIss : DB :=
  { emptyDB with
    issues := [("i1", issueA), ("i2", issueB)]
    vehicles := [("v1", vehicleIss)] }

/-- Fixture: the status-update body marking an issue `done`. -/
def doneBody : IssueStatusBody := { status := "done", notes := none }

/-- Fixture: `dbIss` after `i1` is marked done at time 5. -/
def dbIss2 : DB :=
  { dbIss with
    issues := [("i1", { issueA with status := "done", updatedAt := 5 }),
      ("i2", issueB)] }

theorem getDoc_modifyDoc_self {α : Type} (coll : List (String × α)) (id : String)
    (f : α → α) : getDoc (modifyDoc coll id f) id = (getDoc coll id).map f := by
  induction coll with
  | nil => rfl
  | cons hd tl ih =>
    by_cases h : hd.1 = id
    · simp [getDoc, modifyDoc, h]
    · simp [getDoc, modifyDoc, h, ih]

theorem getDoc_modifyDoc_ne {α : Type} (coll : List (String × α)) (id id' : String)
    (f : α → α) (hne : id' ≠ id) :
    getDoc (modifyDoc coll id f) id' = getDoc coll id' := by
  have h3 : ¬ id = id' := fun he => hne he.symm
  induction coll with
  | nil => rfl
  | cons hd tl ih =>
    by_cases h : hd.1 = id
    · simp [getDoc, modifyDoc, h, h3, ih]
    · by_cases h2 : hd.1 = id'
      · simp [getDoc, modifyDoc, h, h2, hne]
      · simp [getDoc, modifyDoc, h, h2, ih]

theorem getDoc_replaceDoc_self {α : Type} (coll : List (String × α)) (id : String)
    (doc : α) (hmem : containsId coll id = true) :
    getDoc (replaceDoc coll id doc) id = some doc := by
  induction coll with
  | nil => simp [containsId] at hmem
  | cons hd tl ih =>
    by_cases h : hd.1 = id
    · simp [getDoc, replaceDoc, h]
    · simp only [containsId, h, if_false] at hmem
      simp [getDoc, replaceDoc, h, ih hmem]

theorem getDoc_replaceDoc_ne {α : Type} (coll : List (String × α)) (id id' : String)
    (doc : α) (hne : id' ≠ id) :
    getDoc (replaceDoc coll id doc) id' = getDoc coll id' := by
  have h3 : ¬ id = id' := fun he => hne he.symm
  induction coll with
  | nil => rfl
  | cons hd tl ih =>
    by_cases h : hd.1 = id
    · simp [getDoc, replaceDoc, h, h3, ih]
    · by_cases h2 : hd.1 = id'
      · simp [getDoc, replaceDoc, h, h2, hne]
      · simp [getDoc, replaceDoc, h, h2, ih]

theorem getDoc_append_absent {α : Type} (coll : List (String × α)) (id : String)
    (doc : α) : getDoc (coll ++ [(id, doc)]) id = (getDoc coll id).getD doc := by
  induction coll with
  | nil => simp [getDoc]
  | cons hd tl ih =>
    by_cases h : hd.1 = id
    · simp [getDoc, h]
    · simp [getDoc, h, ih]

theorem getDoc_append_ne {α : Type} (coll : List (String × α)) (id id' : String)
    (doc : α) (hne : id' ≠ id) :
    getDoc (coll ++ [(id, doc)]) id' = getDoc coll id' := by
  have h3 : ¬ id = id' := fun he => hne he.symm
  induction coll with
  | nil => simp [getDoc, h3]
  | cons hd tl ih =>
    by_cases h : hd.1 = id'
    · simp [getDoc, h]
    · simp [getDoc, h, ih]

theorem not_containsId_getDoc {α : Type} (coll : List (String × α)) (id : String)
    (hmem : containsId coll id = false) : getDoc coll id = none := by
  induction coll with
  | nil => rfl
  | cons hd tl ih =>
    by_cases h : hd.1 = id
    · simp [containsId, h] at hmem
    · simp only [containsId, h, if_false] at hmem
      simp [getDoc, h, ih hmem]

theorem getDoc_setDoc_self {α : Type} (coll : List (String × α)) (id : String)
    (doc : α) : getDoc (setDoc coll id doc) id = some doc := by
  unfold setDoc
  by_cases hmem : containsId coll id = true
  · rw [if_pos hmem]
    exact getDoc_replaceDoc_self coll id doc hmem
  · rw [if_neg hmem]
    rw [getDoc_append_absent,
      not_containsId_getDoc coll id (Bool.not_eq_true _ ▸ hmem)]
    rfl

theorem getDoc_setDoc_ne {α : Type} (coll : List (String × α)) (id id' : String)
    (doc : α) (hne : id' ≠ id) :
    getDoc (setDoc coll id doc) id' = getDoc coll id' := by
  unfold setDoc
  by_cases hmem : containsId coll id = true
  · rw [if_pos hmem]
    exact getDoc_replaceDoc_ne coll id id' doc hne
  · rw [if_neg hmem]
    exact getDoc_append_ne coll id id' doc hne

theorem getDoc_deleteDoc_ne {α : Type} (coll : List (String × α)) (id id' : String)
    (hne : id' ≠ id) : getDoc (deleteDoc coll id) id' = getDoc coll id' := by
  have h3 : ¬ id = id' := fun he => hne he.symm
  induction coll with
  | nil => rfl
  | cons hd tl ih =>
    by_cases h : hd.1 = id
    · simp [getDoc, deleteDoc, h, h3, ih]
    · by_cases h2 : hd.1 = id'
      · simp [getDoc, deleteDoc, h, h2, hne]
      · simp [getDoc, deleteDoc, h, h2, ih]

theorem modifyDoc_eq_map {α : Type} (coll : List (String × α)) (id : String)
    (f : α → α) :
    modifyDoc coll id f = coll.map (fun p => if p.1 = id then (p.1, f p.2) else p) := by
  induction coll with
  | nil => rfl
  | cons hd tl ih => simp [modifyDoc, ih]

theorem length_modifyDoc {α : Type} (coll : List (String × α)) (id : String)
    (f : α → α) : (modifyDoc coll id f).length = coll.length := by
  rw [modifyDoc_eq_map]
  exact List.length_map coll _

theorem keys_modifyDoc {α : Type} (coll : List (String × α)) (id : String)
    (f : α → α) : (modifyDoc coll id f).map Prod.fst = coll.map Prod.fst := by
  rw [modifyDoc_eq_map, List.map_map]
  apply List.map_congr_left
  intro p _
  by_cases h : p.1 = id
  · simp [h]
  · simp [h]

theorem mem_modifyDoc {α : Type} {coll : List (String × α)} {id idf : String}
    {f : α → α} {v : α} (hmem : (idf, v) ∈ modifyDoc coll id f) :
    ∃ w, (idf, w) ∈ coll ∧ ((idf ≠ id ∧ v = w) ∨ (idf = id ∧ v = f w)) := by
  rw [modifyDoc_eq_map] at hmem
  rcases List.mem_map.mp hmem with ⟨p, hp, he⟩
  by_cases h : p.1 = id
  · simp only [h, if_true] at he
    have h1 : id = idf := congrArg Prod.fst he
    have h2 : f p.2 = v := congrArg Prod.snd he
    refine ⟨p.2, ?_, Or.inr ⟨h1.symm, h2.symm⟩⟩
    have hpe : p = (idf, p.2) := by
      rw [← h1, ← h]
    exact hpe ▸ hp
  · simp only [h, if_false] at he
    have h1 : p.1 = idf := congrArg Prod.fst he
    have h2 : p.2 = v := congrArg Prod.snd he
    refine ⟨p.2, ?_, Or.inl ⟨fun hc => h (h1.trans hc), h2.symm⟩⟩
    have hpe : p = (idf, p.2) := by
      rw [← h1]
    exact hpe ▸ hp

theorem containsId_modifyDoc {α : Type} (coll : List (String × α)) (id id2 : String)
    (f : α → α) : containsId (modifyDoc coll id2 f) id = containsId coll id := by
  induction coll with
  | nil => rfl
  | cons hd tl ih =>
    by_cases h : hd.1 = id2
    · simp [modifyDoc, containsId, h, ih]
    · simp [modifyDoc, containsId, h, ih]

theorem containsId_false_of_getDoc_none {α : Type} {coll : List (String × α)}
    {id : String} (hnone : getDoc coll id = none) : containsId coll id = false := by
  induction coll with
  | nil => rfl
  | cons hd tl ih =>
    by_cases h : hd.1 = id
    · simp [getDoc, h] at hnone
    · simp only [getDoc, h, if_false] at hnone
      simp [containsId, h, ih hnone]

theorem getDoc_isSome_of_mem {α : Type} {coll : List (String × α)} {id : String}
    {v : α} (hmem : (id, v) ∈ coll) : ∃ w, getDoc coll id = some w := by
  induction coll with
  | nil => simp at hmem
  | cons hd tl ih =>
    by_cases h : hd.1 = id
    · exact ⟨hd.2, by simp [getDoc, h]⟩
    · rcases List.mem_cons.mp hmem with he | htl
      · exact absurd (congrArg Prod.fst he.symm) h
      · simp only [getDoc, h, if_false]
        exact ih htl

theorem getDoc_eq_of_mem_nodup {α : Type} {coll : List (String × α)} {id : String}
    {v : α} (hnd : (coll.map Prod.fst).Nodup) (hmem : (id, v) ∈ coll) :
    getDoc coll id = some v := by
  induction coll with
  | nil => simp at hmem
  | cons hd tl ih =>
    rw [List.map_cons] at hnd
    have hnd2 := List.nodup_cons.mp hnd
    rcases List.mem_cons.mp hmem with he | htl
    · rw [← he]
      simp [getDoc]
    · have hk : id ∈ tl.map Prod.fst := List.mem_map.mpr ⟨(id, v), htl, rfl⟩
      have hne : ¬ hd.1 = id := fun he2 => hnd2.1 (by rw [he2]; exact hk)
      simp only [getDoc, hne, if_false]
      exact ih hnd2.2 htl

theorem length_setDoc_absent {α : Type} (coll : List (String × α)) (id : String)
    (doc : α) (habs : getDoc coll id = none) :
    (setDoc coll id doc).length = coll.length + 1 := by
  have hc : containsId coll id = false := by
    induction coll with
    | nil => rfl
    | cons hd tl ih =>
      by_cases h : hd.1 = id
      · simp [getDoc, h] at habs
      · simp only [getDoc, h, if_false] at habs
        simp [containsId, h, ih habs]
  simp [setDoc, hc]

theorem closeFloatPatch_idem (now : Nat) (f : FloatDoc) :
    closeFloatPatch now (closeFloatPatch now f) = closeFloatPatch now f := rfl

theorem mem_closeAll {now : Nat} {l fs : List (String × FloatDoc)} {id : String}
    {v : FloatDoc} (hmem : (id, v) ∈ closeAll now fs l) :
    ∃ w, (id, w) ∈ fs ∧ (v = w ∨ v = closeFloatPatch now w) := by
  induction l generalizing fs with
  | nil => exact ⟨v, hmem, Or.inl rfl⟩
  | cons p rest ih =>
    rcases ih (by simpa [closeAll, List.foldl_cons] using hmem) with ⟨g, hg, hvg⟩
    rcases mem_modifyDoc hg with ⟨w, hw, hgw⟩
    rcases hvg with hv | hv
    · rcases hgw with ⟨_, hge⟩ | ⟨_, hge⟩
      · exact ⟨w, hw, Or.inl (hv.trans hge)⟩
      · exact ⟨w, hw, Or.inr (hv.trans hge)⟩
    · rcases hgw with ⟨_, hge⟩ | ⟨_, hge⟩
      · exact ⟨w, hw, Or.inr (by rw [hv, hge])⟩
      · exact ⟨w, hw, Or.inr (by rw [hv, hge, closeFloatPatch_idem])⟩

theorem pres_closeAll {now : Nat} {l fs : List (String × FloatDoc)} {id : String}
    (hall : ∀ v, (id, v) ∈ fs → v.active = false ∧ v.closedAt = some now) :
    ∀ v, (id, v) ∈ closeAll now fs l → v.active = false ∧ v.closedAt = some now := by
  induction l generalizing fs with
  | nil => exact hall
  | cons p rest ih =>
    intro v hv
    refine ih (fun w hw => ?_) v (by simpa [closeAll, List.foldl_cons] using hv)
    rcases mem_modifyDoc hw with ⟨w2, hw2, hcase⟩
    rcases hcase with ⟨_, he⟩ | ⟨_, he⟩
    · exact he ▸ hall w2 hw2
    · exact he ▸ ⟨rfl, rfl⟩

theorem closed_closeAll {now : Nat} {l fs : List (String × FloatDoc)} {id : String}
    (htgt : id ∈ l.map Prod.fst) :
    ∀ v, (id, v) ∈ closeAll now fs l → v.active = false ∧ v.closedAt = some now := by
  induction l generalizing fs with
  | nil => simp at htgt
  | cons p rest ih =>
    intro v hv
    have hv2 : (id, v) ∈ closeAll now (modifyDoc fs p.1 (closeFloatPatch now)) rest := by
      simpa [closeAll, List.foldl_cons] using hv
    by_cases hr : id ∈ rest.map Prod.fst
    · exact ih hr v hv2
    · have hp : p.1 = id := by
        rw [List.map_cons] at htgt
        rcases List.mem_cons.mp htgt with he | he
        · exact he.symm
        · exact absurd he hr
      refine pres_closeAll (fun w hw => ?_) v hv2
      rcases mem_modifyDoc hw with ⟨w2, _, hcase⟩
      rcases hcase with ⟨hne, _⟩ | ⟨_, he⟩
      · exact absurd hp.symm hne
      · exact he ▸ ⟨rfl, rfl⟩

theorem containsId_closeAll (now : Nat) (l fs : List (String × FloatDoc))
    (id : String) : containsId (closeAll now fs l) id = containsId fs id := by
  induction l generalizing fs with
  | nil => rfl
  | cons p rest ih =>
    rw [closeAll, List.foldl_cons]
    rw [show List.foldl (fun acc q => modifyDoc acc q.1 (closeFloatPatch now))
      (modifyDoc fs p.1 (closeFloatPatch now)) rest
      = closeAll now (modifyDoc fs p.1 (closeFloatPatch now)) rest from rfl]
    rw [ih, containsId_modifyDoc]

theorem length_closeAll (now : Nat) (l fs : List (String × FloatDoc)) :
    (closeAll now fs l).length = fs.length := by
  induction l generalizing fs with
  | nil => rfl
  | cons p rest ih =>
    rw [closeAll, List.foldl_cons]
    rw [show List.foldl (fun acc q => modifyDoc acc q.1 (closeFloatPatch now))
      (modifyDoc fs p.1 (closeFloatPatch now)) rest
      = closeAll now (modifyDoc fs p.1 (closeFloatPatch now)) rest from rfl]
    rw [ih, length_modifyDoc]

/-- C9: for `updateExpenseStatus`, a call on a non-`pending` expense fails
with `AlreadyProcessed` and changes no state; a successful call changes
only the expense's status, approver id, and timestamps, changes no other
collection (in particular no float's `remainingAmount`) and no other
expense, and a second approve/reject of the same expense fails with
`AlreadyProcessed` as a no-op. -/
theorem c9_update_expense_status_frame (user user2 : User)
    (expenseId action action2 : String) (now now2 : Nat) (db : DB) (e : ExpenseDoc)
    (hrole : requireRole user.role [.ops, .owner] = true)
    (hact : action = "approve" ∨ action = "reject")
    (hget : getDoc db.expenses expenseId = some e)
    (horg : e.organisationId = user.organisationId) :
    (e.status ≠ "pending" →
      updateExpenseStatus user expenseId action now db = ⟨.error .alreadyProcessed, db⟩)
    ∧
    (e.status = "pending" →
      (updateExpenseStatus user expenseId action now db).res = .ok expenseId ∧
      (updateExpenseStatus user expenseId action now db).db.floats = db.floats ∧
      (updateExpenseStatus user expenseId action now db).db.tours = db.tours ∧
      (updateExpenseStatus user expenseId action now db).db.vehicles = db.vehicles ∧
      (updateExpenseStatus user expenseId action now db).db.issues = db.issues ∧
      (updateExpenseStatus user expenseId action now db).db.inspections
        = db.inspections ∧
      getDoc (updateExpenseStatus user expenseId action now db).db.expenses expenseId
        = some { e with
            status := if action = "approve" then "approved" else "rejected"
            approvedBy := some user.uid
            approvedAt := some now
            updatedAt := now } ∧
      (∀ otherId, otherId ≠ expenseId →
        getDoc (updateExpenseStatus user expenseId action now db).db.expenses otherId
          = getDoc db.expenses otherId) ∧
      (requireRole user2.role [.ops, .owner] = true →
        (action2 = "approve" ∨ action2 = "reject") →
        user2.organisationId = user.organisationId →
        updateExpenseStatus user2 expenseId action2 now2
            (updateExpenseStatus user expenseId action now db).db
          = ⟨.error .alreadyProcessed,
              (updateExpenseStatus user expenseId action now db).db⟩)) := by
  have hactb : (action = "approve" ∨ action = "reject") := hact
  constructor
  · intro hst
    simp [updateExpenseStatus, hrole, hactb, hget, horg, hst]
  · intro hst
    have hout : updateExpenseStatus user expenseId action now db
        = ⟨.ok expenseId, { db with
            expenses := modifyDoc db.expenses expenseId (fun e2 =>
              { e2 with
                status := if action = "approve" then "approved" else "rejected"
                approvedBy := some user.uid
                approvedAt := some now
                updatedAt := now }) }⟩ := by
      simp [updateExpenseStatus, hrole, hactb, hget, horg, hst]
    refine ⟨by rw [hout], by rw [hout], by rw [hout], by rw [hout], by rw [hout],
      by rw [hout], ?_, ?_, ?_⟩
    · rw [hout]
      show getDoc (modifyDoc db.expenses expenseId _) expenseId = _
      rw [getDoc_modifyDoc_self, hget]
      rfl
    · intro otherId hne
      rw [hout]
      exact getDoc_modifyDoc_ne db.expenses expenseId otherId _ hne
    · intro hrole2 hact2 horg2
      rw [hout]
      have hget3 : getDoc (modifyDoc db.expenses expenseId (fun e2 =>
          { e2 with
            status := if action = "approve" then "approved" else "rejected"
            approvedBy := some user.uid
            approvedAt := some now
            updatedAt := now })) expenseId = some { e with
            status := if action = "approve" then "approved" else "rejected"
            approvedBy := some user.uid
            approvedAt := some now
            updatedAt := now } := by
        rw [getDoc_modifyDoc_self, hget]
        rfl
      have hstat2 : ¬ (if action = "approve" then "approved" else "rejected") = "pending" := by
        rcases hact with ha | ha
        · simp [ha]
        · simp [ha]
      simp [updateExpenseStatus, hrole2, hact2, hget3, horg2, horg, hstat2]

/-- C9 witness: concrete approve of the pending expense `e1` in `dbA`,
followed by a second call that fails with `AlreadyProcessed`. -/
theorem c9_update_expense_status_frame_witness :
    (updateExpenseStatus uo "e1" "approve" 5 dbA).res = .ok "e1" ∧
    (updateExpenseStatus uo "e1" "approve" 5 dbA).db.floats = dbA.floats ∧
    updateExpenseStatus uo "e1" "reject" 6 (updateExpenseStatus uo "e1" "approve" 5 dbA).db
      = ⟨.error .alreadyProcessed, (updateExpenseStatus uo "e1" "approve" 5 dbA).db⟩ := by
  have h := c9_update_expense_status_frame uo uo "e1" "approve" "reject" 5 6 dbA expWifi1
    (by decide) (Or.inl rfl) (by simp [dbA, getDoc]) rfl
  rcases h.2 rfl with ⟨h1, h2, _, _, _, _, _, _, h9⟩
  exact ⟨h1, h2, h9 (by decide) (Or.inr rfl) rfl⟩

/-- C1 (amended): for every `createExpense` call that reaches the funds
check of the atomic transaction, the call fails with `InsufficientFunds`
if and only if `floatData.remainingAmount < amountCents`, for every
category alike — the adjustment sign (`+amount` for the reimbursement
category WIFI, `-amount` otherwise) plays no role in the check and is
applied to the balance only on success. -/
theorem c1_insufficient_funds_check (user : User) (body : ExpenseBody)
    (newExpenseId : String) (now : Nat) (db : DB) (floatData : FloatDoc)
    (hrole : requireRole user.role [.driver] = true)
    (hfid : body.floatId.getD "" ≠ "")
    (hget : getDoc db.floats (body.floatId.getD "") = some floatData)
    (horg : floatData.organisationId = user.organisationId)
    (hdrv : floatData.driverId = user.uid) :
    ((createExpense user body newExpenseId now db).res = .error .insufficientFunds
      ↔ floatData.remainingAmount < body.amountCents)
    ∧
    (¬ floatData.remainingAmount < body.amountCents →
      (createExpense user body newExpenseId now db).res = .ok () ∧
      getDoc (createExpense user body newExpenseId now db).db.floats
          (body.floatId.getD "")
        = some { floatData with
            remainingAmount := floatData.remainingAmount +
              (if body.category = "WIFI" then body.amountCents else -body.amountCents)
            updatedAt := now }) := by
  by_cases hlt : floatData.remainingAmount < body.amountCents
  · constructor
    · simp [createExpense, hrole, hfid, hget, horg, hdrv, hlt]
    · intro hc
      exact absurd hlt hc
  · have hout : (createExpense user body newExpenseId now db).db.floats
        = modifyDoc db.floats (body.floatId.getD "") (fun f =>
            { f with
              remainingAmount := f.remainingAmount +
                (if body.category = "WIFI" then body.amountCents else -body.amountCents)
              updatedAt := now }) := by
      simp [createExpense, hrole, hfid, hget, horg, hdrv, hlt]
    refine ⟨by simp [createExpense, hrole, hfid, hget, horg, hdrv, hlt], fun _ => ⟨?_, ?_⟩⟩
    · simp [createExpense, hrole, hfid, hget, horg, hdrv, hlt]
    · rw [hout, getDoc_modifyDoc_self, hget]
      rfl

/-- C1 counterexample: a reimbursement-category expense of 100 against a
float with remaining amount 0 fails with `InsufficientFunds`, although
the claimed condition `remainingAmount + adjustment < 0` does not hold
(`0 + 100 ≥ 0`) — so the claimed "never fails" guarantee for
reimbursement expenses against non-negative floats is false. -/
theorem c1_counterexample :
    (createExpense u1 wifiBody "e1" 1 db0).res = .error .insufficientFunds ∧
    wifiBody.category = "WIFI" ∧
    (0 : ℚ) ≤ float0.remainingAmount ∧
    0 ≤ float0.remainingAmount +
      (if wifiBody.category = "WIFI" then wifiBody.amountCents
        else -wifiBody.amountCents) := by
  refine ⟨?_, rfl, by norm_num [float0], by norm_num [float0, wifiBody]⟩
  simp [createExpense, u1, wifiBody, db0, float0, requireRole, getDoc, expenseMeta]

/-- C1 witness: with remaining amount 1 and a reimbursement expense of
amount 1, the funds check passes and the commit credits the float. -/
theorem c1_insufficient_funds_check_witness :
    ((createExpense u1 wifi1Body "e1" 1 db1).res = .error .insufficientFunds
      ↔ float1.remainingAmount < wifi1Body.amountCents) ∧
    (createExpense u1 wifi1Body "e1" 1 db1).res = .ok () := by
  have h := c1_insufficient_funds_check u1 wifi1Body "e1" 1 db1 float1
    (by decide) (by simp [wifi1Body, wifiBody]) (by simp [db1, db0, getDoc, wifi1Body, wifiBody]) rfl rfl
  exact ⟨h.1, (h.2 (by norm_num [float1, float0, wifi1Body, wifiBody])).1⟩

/-- C10: `createExpense` never validates `amountCents`; a negative-amount
debit expense against an owned float with non-negative remaining amount
passes the `remainingAmount < amountCents` check and commits with the
balance increased by the absolute amount — a negative expense credits
the float. -/
theorem c10_negative_amount_credits (user : User) (body : ExpenseBody)
    (newExpenseId : String) (now : Nat) (db : DB) (floatData : FloatDoc)
    (hrole : requireRole user.role [.driver] = true)
    (hfid : body.floatId.getD "" ≠ "")
    (hget : getDoc db.floats (body.floatId.getD "") = some floatData)
    (horg : floatData.organisationId = user.organisationId)
    (hdrv : floatData.driverId = user.uid)
    (hneg : body.amountCents < 0)
    (hcat : body.category ≠ "WIFI")
    (hrem : 0 ≤ floatData.remainingAmount) :
    (createExpense user body newExpenseId now db).res = .ok () ∧
    getDoc (createExpense user body newExpenseId now db).db.floats
        (body.floatId.getD "")
      = some { floatData with
          remainingAmount := floatData.remainingAmount - body.amountCents
          updatedAt := now } ∧
    floatData.remainingAmount < floatData.remainingAmount - body.amountCents := by
  have hlt : ¬ floatData.remainingAmount < body.amountCents :=
    not_lt.mpr (le_of_lt (lt_of_lt_of_le hneg hrem))
  refine ⟨?_, ?_, by linarith⟩
  · simp [createExpense, hrole, hfid, hget, horg, hdrv, hlt]
  · have hout : (createExpense user body newExpenseId now db).db.floats
        = modifyDoc db.floats (body.floatId.getD "") (fun f =>
            { f with
              remainingAmount := f.remainingAmount +
                (if body.category = "WIFI" then body.amountCents else -body.amountCents)
              updatedAt := now }) := by
      simp [createExpense, hrole, hfid, hget, horg, hdrv, hlt]
    rw [hout, getDoc_modifyDoc_self, hget]
    simp only [Option.map_some']
    rw [if_neg hcat, ← sub_eq_add_neg]

/-- C10 witness: an expense of −50 against a float with remaining 1
commits and lifts the balance to 51. -/
theorem c10_negative_amount_credits_witness :
    (createExpense u1 negBody "e1" 1 db1).res = .ok () ∧
    getDoc (createExpense u1 negBody "e1" 1 db1).db.floats "f1"
      = some { float1 with remainingAmount := float1.remainingAmount - (-50)
                           updatedAt := 1 } ∧
    float1.remainingAmount < float1.remainingAmount - (-50 : ℚ) := by
  have h := c10_negative_amount_credits u1 negBody "e1" 1 db1 float1
    (by decide) (by simp [negBody, wifiBody]) (by simp [db1, db0, getDoc, negBody, wifiBody])
    rfl rfl (by norm_num [negBody, wifiBody]) (by simp [negBody, wifiBody])
    (by norm_num [float1, float0])
  exact h

/-- C3: submitting a non-reimbursement expense of amount `A` against a
float with remaining amount `R` (leaving `R − A`) and then deleting that
expense while the float still exists in the same organisation restores
the committed remaining amount to exactly `R`. -/
theorem c3_reversal_round_trip (user1 user2 : User) (body : ExpenseBody)
    (newExpenseId : String) (now1 now2 : Nat) (db : DB) (f : FloatDoc)
    (hrole1 : user1.role = .driver)
    (hfid : body.floatId.getD "" ≠ "")
    (hget : getDoc db.floats (body.floatId.getD "") = some f)
    (horg : f.organisationId = user1.organisationId)
    (hdrv : f.driverId = user1.uid)
    (hfunds : ¬ f.remainingAmount < body.amountCents)
    (hcat : body.category ≠ "WIFI")
    (hrole2 : user2.role = .owner)
    (horg2 : user2.organisationId = user1.organisationId) :
    (createExpense user1 body newExpenseId now1 db).res = .ok () ∧
    (getDoc (createExpense user1 body newExpenseId now1 db).db.floats
        (body.floatId.getD "")).map (fun g => g.remainingAmount)
      = some (f.remainingAmount - body.amountCents) ∧
    (deleteExpense user2 newExpenseId now2
        (createExpense user1 body newExpenseId now1 db).db).res = .ok () ∧
    (getDoc (deleteExpense user2 newExpenseId now2
          (createExpense user1 body newExpenseId now1 db).db).db.floats
        (body.floatId.getD "")).map (fun g => g.remainingAmount)
      = some f.remainingAmount := by
  have hrr1 : requireRole user1.role [.driver] = true := by
    simp [requireRole, hrole1]
  have hrr2 : requireRole user2.role [.owner] = true := by
    simp [requireRole, hrole2]
  have hres1 : (createExpense user1 body newExpenseId now1 db).res = .ok () := by
    simp [createExpense, hrr1, hfid, hget, horg, hdrv, hfunds]
  have hfl1 : (createExpense user1 body newExpenseId now1 db).db.floats
      = modifyDoc db.floats (body.floatId.getD "") (fun fl =>
          { fl with
            remainingAmount := fl.remainingAmount +
              (if body.category = "WIFI" then body.amountCents else -body.amountCents)
            updatedAt := now1 }) := by
    simp [createExpense, hrr1, hfid, hget, horg, hdrv, hfunds]
  have hex1 : (createExpense user1 body newExpenseId now1 db).db.expenses
      = setDoc db.expenses newExpenseId
          { organisationId := user1.organisationId
            driverId := user1.uid
            floatId := some (body.floatId.getD "")
            tourId := body.tourId
            category := body.category
            amount := body.amountCents
            receiptUrl := body.receiptDownloadUrl
            description := body.description.getD ""
            vehicleLicence := (expenseMeta db body.tourId).1
            trailerLicence := (expenseMeta db body.tourId).2.1
            driverName := (expenseMeta db body.tourId).2.2
            status := "pending"
            approvedBy := none
            approvedAt := none
            createdAt := now1
            updatedAt := now1 } := by
    simp [createExpense, hrr1, hfid, hget, horg, hdrv, hfunds]
  have hexp : getDoc (createExpense user1 body newExpenseId now1 db).db.expenses
      newExpenseId
      = some { organisationId := user1.organisationId
               driverId := user1.uid
               floatId := some (body.floatId.getD "")
               tourId := body.tourId
               category := body.category
               amount := body.amountCents
               receiptUrl := body.receiptDownloadUrl
               description := body.description.getD ""
               vehicleLicence := (expenseMeta db body.tourId).1
               trailerLicence := (expenseMeta db body.tourId).2.1
               driverName := (expenseMeta db body.tourId).2.2
               status := "pending"
               approvedBy := none
               approvedAt := none
               createdAt := now1
               updatedAt := now1 } := by
    rw [hex1]
    exact getDoc_setDoc_self db.expenses newExpenseId _
  have hflt : getDoc (createExpense user1 body newExpenseId now1 db).db.floats
      (body.floatId.getD "")
      = some { f with
          remainingAmount := f.remainingAmount +
            (if body.category = "WIFI" then body.amountCents else -body.amountCents)
          updatedAt := now1 } := by
    rw [hfl1, getDoc_modifyDoc_self, hget]
    rfl
  refine ⟨hres1, ?_, ?_, ?_⟩
  · rw [hflt]
    simp only [Option.map_some']
    rw [if_neg hcat, ← sub_eq_add_neg]
  · simp [deleteExpense, hrr2, hexp, horg2, horg, hflt, hcat]
  · have hfl2 : (deleteExpense user2 newExpenseId now2
        (createExpense user1 body newExpenseId now1 db).db).db.floats
        = modifyDoc (createExpense user1 body newExpenseId now1 db).db.floats
            (body.floatId.getD "") (fun fl =>
              { fl with
                remainingAmount := fl.remainingAmount + body.amountCents
                updatedAt := now2 }) := by
      simp [deleteExpense, hrr2, hexp, horg2, horg, hflt, hcat]
    rw [hfl2, getDoc_modifyDoc_self, hflt]
    simp only [Option.map_some']
    rw [if_neg hcat]
    congr 1
    ring

/-- C3 witness: issue 5000, submit a 1200 debit expense (remaining 3800),
delete it, remaining returns to exactly 5000. -/
theorem c3_reversal_round_trip_witness :
    (createExpense u1 body1200 "e1" 1 db5000).res = .ok () ∧
    (getDoc (createExpense u1 body1200 "e1" 1 db5000).db.floats
        (body1200.floatId.getD "")).map (fun g => g.remainingAmount)
      = some (float5000.remainingAmount - body1200.amountCents) ∧
    float5000.remainingAmount - body1200.amountCents = 3800 ∧
    (deleteExpense uo "e1" 2 (createExpense u1 body1200 "e1" 1 db5000).db).res
      = .ok () ∧
    (getDoc (deleteExpense uo "e1" 2
          (createExpense u1 body1200 "e1" 1 db5000).db).db.floats
        (body1200.floatId.getD "")).map (fun g => g.remainingAmount)
      = some float5000.remainingAmount ∧
    float5000.remainingAmount = 5000 := by
  have h := c3_reversal_round_trip u1 uo body1200 "e1" 1 2 db5000 float5000
    rfl (by simp [body1200, wifiBody])
    (by simp [db5000, db0, getDoc, body1200, wifiBody]) rfl rfl
    (by norm_num [float5000, float0, body1200, wifiBody])
    (by simp [body1200, wifiBody]) rfl rfl
  exact ⟨h.1, h.2.1, by norm_num [float5000, float0, body1200, wifiBody],
    h.2.2.1, h.2.2.2, by norm_num [float5000, float0]⟩

/-- C8 (amended): `issueFloat` rejects with the invalid-payload error
exactly when the driver id is falsy, the amount is not a number, or the
amount is `≤ 0`; integrality of the amount is never checked, so a
fractional positive amount passes validation. -/
theorem c8_amount_validation (user : User) (body : IssueFloatBody)
    (newFloatId : String) (now : Nat) (db : DB)
    (hrole : requireRole user.role [.ops, .owner, .tour_manager] = true) :
    (issueFloat user body newFloatId now db).res = .error .invalidPayload
      ↔ body.driverId.getD "" = "" ∨
        (∀ q : ℚ, body.amountCents ≠ .num q) ∨
        (∃ q : ℚ, body.amountCents = .num q ∧ q ≤ 0) := by
  cases hb : body.amountCents with
  | num q =>
    by_cases hv : body.driverId.getD "" = "" ∨ q ≤ 0
    · constructor
      · intro _
        rcases hv with hv | hv
        · exact Or.inl hv
        · exact Or.inr (Or.inr ⟨q, rfl, hv⟩)
      · intro _
        simp [issueFloat, hrole, hb, hv]
    · push_neg at hv
      have hne : ¬ (body.driverId.getD "" = "" ∨ q ≤ 0) := by
        push_neg
        exact hv
      constructor
      · intro hres
        exfalso
        by_cases hc : (activeFloatsFor db user.organisationId
            (body.driverId.getD "")).length > 0 ∧ user.role ≠ .owner
        · simp [issueFloat, hrole, hb, hne, hc] at hres
        · simp [issueFloat, hrole, hb, hne, hc] at hres
      · intro hcontra
        rcases hcontra with hd | hq | ⟨q2, he, hle⟩
        · exact absurd hd hv.1
        · exact absurd rfl (hq q)
        · cases he
          exact absurd hle (not_le.mpr hv.2)
  | bool b => simp [issueFloat, hrole, hb]
  | str s => simp [issueFloat, hrole, hb]
  | tyreArr ms => simp [issueFloat, hrole, hb]
  | null => simp [issueFloat, hrole, hb]

/-- C8 counterexample: a fractional positive amount of half a cent is
not a positive integer, yet `issueFloat` accepts it and creates the
float instead of rejecting it. -/
theorem c8_counterexample :
    (issueFloat uo halfBody "f9" 1 emptyDB).res = .ok "f9" ∧
    (∃ q : ℚ, halfBody.amountCents = .num q ∧ 0 < q ∧ ∀ n : ℤ, q ≠ (n : ℚ)) := by
  refine ⟨?_, ⟨1 / 2, rfl, by norm_num, ?_⟩⟩
  · simp [issueFloat, uo, halfBody, emptyDB, requireRole, activeFloatsFor]
    norm_num
  · intro n hn
    have h2 : (2 : ℚ) * n = 1 := by
      rw [← hn]
      norm_num
    have h3 : (2 : ℤ) * n = 1 := by
      exact_mod_cast h2
    omega

/-- C8 witness: amount zero is rejected with the invalid-payload
error. -/
theorem c8_amount_validation_witness :
    (issueFloat uo zeroBody "f9" 1 emptyDB).res = .error .invalidPayload := by
  exact (c8_amount_validation uo zeroBody "f9" 1 emptyDB (by decide)).mpr
    (Or.inr (Or.inr ⟨0, rfl, le_refl 0⟩))

theorem commitWifi1 : createExpense u1 wifi1Body "e1" 1 db1 = ⟨.ok (), dbA⟩ := by
  simp [createExpense, u1, wifi1Body, wifiBody, db1, db0, float1, float0, dbA,
    expWifi1, requireRole, getDoc, expenseMeta, setDoc, containsId, replaceDoc,
    modifyDoc]
  norm_num

theorem commitFood2 : createExpense u1 food2Body "e2" 2 dbA = ⟨.ok (), dbB⟩ := by
  simp [createExpense, u1, food2Body, wifiBody, dbA, dbB, float1, float0,
    expWifi1, expFood2, requireRole, getDoc, expenseMeta, setDoc, containsId,
    replaceDoc, modifyDoc]

/-- C2 counterexample: starting from a float with
`remainingAmount = originalAmount = 1 ≥ 0`, the committed sequence
"submit reimbursement expense 1, submit debit expense 2, delete the
reimbursement expense" ends with `remainingAmount = −1 < 0`: the
non-negativity invariant is not preserved by `deleteExpense` of a
reimbursement-category expense. -/
theorem c2_counterexample :
    float1.remainingAmount = float1.originalAmount ∧
    0 ≤ float1.remainingAmount ∧
    (createExpense u1 wifi1Body "e1" 1 db1).res = .ok () ∧
    (createExpense u1 food2Body "e2" 2
      (createExpense u1 wifi1Body "e1" 1 db1).db).res = .ok () ∧
    (deleteExpense uo "e1" 3 (createExpense u1 food2Body "e2" 2
      (createExpense u1 wifi1Body "e1" 1 db1).db).db).res = .ok () ∧
    (getDoc (deleteExpense uo "e1" 3 (createExpense u1 food2Body "e2" 2
        (createExpense u1 wifi1Body "e1" 1 db1).db).db).db.floats "f1").map
      (fun f => f.remainingAmount) = some (-1) ∧
    ¬ (0 : ℚ) ≤ -1 := by
  refine ⟨rfl, by norm_num [float1, float0], ?_, ?_, ?_, ?_, by norm_num⟩
  · rw [commitWifi1]
  · rw [commitWifi1]
    show (createExpense u1 food2Body "e2" 2 dbA).res = .ok ()
    rw [commitFood2]
  · rw [commitWifi1]
    show (deleteExpense uo "e1" 3 (createExpense u1 food2Body "e2" 2 dbA).db).res
      = .ok ()
    rw [commitFood2]
    simp [deleteExpense, uo, dbB, dbA, float1, float0, expWifi1, expFood2,
      requireRole, getDoc, modifyDoc, deleteDoc]
  · rw [commitWifi1]
    show (getDoc (deleteExpense uo "e1" 3
        (createExpense u1 food2Body "e2" 2 dbA).db).db.floats "f1").map
      (fun f => f.remainingAmount) = some (-1)
    rw [commitFood2]
    simp [deleteExpense, uo, dbB, dbA, float1, float0, expWifi1, expFood2,
      requireRole, getDoc, modifyDoc, deleteDoc]

/-- C2 (amended): with unique float ids and non-negative amounts, every
committed `createExpense` preserves non-negativity of all float
balances, and so does every committed `deleteExpense` whose target is a
non-reimbursement expense; the invariant as claimed fails only through
`deleteExpense` of a reimbursement-category (WIFI) expense, whose
reversal subtracts the amount without any balance check. -/
theorem c2_nonneg_preservation :
    (∀ (user : User) (body : ExpenseBody) (newExpenseId : String) (now : Nat)
        (db : DB),
      (db.floats.map Prod.fst).Nodup →
      0 ≤ body.amountCents →
      (∀ id f, (id, f) ∈ db.floats → 0 ≤ f.remainingAmount) →
      ∀ id f, (id, f) ∈ (createExpense user body newExpenseId now db).db.floats →
        0 ≤ f.remainingAmount)
    ∧
    (∀ (user : User) (expenseId : String) (now : Nat) (db : DB) (e : ExpenseDoc),
      getDoc db.expenses expenseId = some e →
      e.category ≠ "WIFI" →
      0 ≤ e.amount →
      (∀ id f, (id, f) ∈ db.floats → 0 ≤ f.remainingAmount) →
      ∀ id f, (id, f) ∈ (deleteExpense user expenseId now db).db.floats →
        0 ≤ f.remainingAmount) := by
  constructor
  · intro user body newExpenseId now db hnd hamt hall id f hmem
    by_cases h1 : requireRole user.role [.driver] = true
    · by_cases h2 : body.floatId.getD "" = ""
      · have he : (createExpense user body newExpenseId now db).db.floats
            = db.floats := by
          simp [createExpense, h1, h2]
        exact hall id f (he ▸ hmem)
      · cases hg : getDoc db.floats (body.floatId.getD "") with
        | none =>
          have he : (createExpense user body newExpenseId now db).db.floats
              = db.floats := by
            simp [createExpense, h1, h2, hg]
          exact hall id f (he ▸ hmem)
        | some fd =>
          by_cases h3 : fd.organisationId ≠ user.organisationId ∨
              fd.driverId ≠ user.uid
          · have he : (createExpense user body newExpenseId now db).db.floats
                = db.floats := by
              simp only [createExpense, h1, h2, hg]
              simp [h3]
            exact hall id f (he ▸ hmem)
          · by_cases h4 : fd.remainingAmount < body.amountCents
            · have he : (createExpense user body newExpenseId now db).db.floats
                  = db.floats := by
                simp only [createExpense, h1, h2, hg]
                simp [h3, h4]
              exact hall id f (he ▸ hmem)
            · have he : (createExpense user body newExpenseId now db).db.floats
                  = modifyDoc db.floats (body.floatId.getD "") (fun fl =>
                      { fl with
                        remainingAmount := fl.remainingAmount +
                          (if body.category = "WIFI" then body.amountCents
                            else -body.amountCents)
                        updatedAt := now }) := by
                simp only [createExpense, h1, h2, hg]
                simp [h3, h4]
              rcases mem_modifyDoc (he ▸ hmem) with ⟨w, hw, hcase⟩
              rcases hcase with ⟨_, hf⟩ | ⟨hid, hf⟩
              · exact hf ▸ hall id w hw
              · have hgw : getDoc db.floats (body.floatId.getD "") = some w :=
                  getDoc_eq_of_mem_nodup hnd (hid ▸ hw)
                have hwfd : w = fd := Option.some.inj (hgw.symm.trans hg)
                have hwrem : 0 ≤ w.remainingAmount := hall id w hw
                subst hf
                by_cases hcat : body.category = "WIFI"
                · simp only [hcat, if_pos rfl]
                  show 0 ≤ w.remainingAmount + body.amountCents
                  linarith
                · simp only [if_neg hcat]
                  show 0 ≤ w.remainingAmount + -body.amountCents
                  have h5 : body.amountCents ≤ fd.remainingAmount := le_of_not_lt h4
                  rw [hwfd]
                  rw [hwfd] at hwrem
                  linarith
    · have he : (createExpense user body newExpenseId now db).db.floats
          = db.floats := by
        simp [createExpense, h1]
      exact hall id f (he ▸ hmem)
  · intro user expenseId now db e hget hcat hamt hall id f hmem
    by_cases h1 : requireRole user.role [.owner] = true
    · by_cases h2 : e.organisationId = user.organisationId
      · cases hf1 : e.floatId with
        | none =>
          have he : (deleteExpense user expenseId now db).db.floats = db.floats := by
            simp [deleteExpense, h1, hget, h2, hf1]
          exact hall id f (he ▸ hmem)
        | some fid =>
          cases hg : getDoc db.floats fid with
          | none =>
            have he : (deleteExpense user expenseId now db).db.floats
                = db.floats := by
              simp [deleteExpense, h1, hget, h2, hf1, hg]
            exact hall id f (he ▸ hmem)
          | some fd =>
            by_cases h3 : fd.organisationId = user.organisationId
            · have he : (deleteExpense user expenseId now db).db.floats
                  = modifyDoc db.floats fid (fun fl =>
                      { fl with
                        remainingAmount := fl.remainingAmount +
                          (if e.category = "WIFI" then -e.amount else e.amount)
                        updatedAt := now }) := by
                simp [deleteExpense, h1, hget, h2, hf1, hg, h3]
              rcases mem_modifyDoc (he ▸ hmem) with ⟨w, hw, hcase⟩
              rcases hcase with ⟨_, hf⟩ | ⟨_, hf⟩
              · exact hf ▸ hall id w hw
              · have hwrem : 0 ≤ w.remainingAmount := hall id w hw
                subst hf
                simp only [if_neg hcat]
                show 0 ≤ w.remainingAmount + e.amount
                linarith
            · have he : (deleteExpense user expenseId now db).db.floats
                  = db.floats := by
                simp [deleteExpense, h1, hget, h2, hf1, hg, h3]
              exact hall id f (he ▸ hmem)
      · have he : (deleteExpense user expenseId now db).db.floats = db.floats := by
          simp [deleteExpense, h1, hget, h2]
        exact hall id f (he ▸ hmem)
    · have he : (deleteExpense user expenseId now db).db.floats = db.floats := by
        simp [deleteExpense, h1]
      exact hall id f (he ▸ hmem)

/-- C2 witness: the preservation part applied to the concrete commit of
a reimbursement expense of 1 against `db1`. -/
theorem c2_nonneg_preservation_witness :
    0 ≤ ({ float1 with remainingAmount := 2, updatedAt := 1 } : FloatDoc).remainingAmount := by
  refine c2_nonneg_preservation.1 u1 wifi1Body "e1" 1 db1 ?_ ?_ ?_ "f1" _ ?_
  · simp [db1, db0]
  · norm_num [wifi1Body, wifiBody]
  · intro id f hmem
    simp [db1, db0] at hmem
    rw [hmem.2]
    norm_num [float1, float0]
  · rw [commitWifi1]
    simp [dbA]

/-- C7: when an active float already exists for the (organisation,
driver) pair, `issueFloat` fails with `ConflictingActiveFloat` and
changes nothing unless the caller is an owner; an owner call closes
every active float of that driver (active := false, closedAt stamped),
creates exactly one new active float, and afterwards every active float
of the pair is the new one. -/
theorem c7_owner_override (user : User) (body : IssueFloatBody)
    (newFloatId : String) (now : Nat) (db : DB) (q : ℚ)
    (hamt : body.amountCents = .num q)
    (hq : 0 < q)
    (hdrv : body.driverId.getD "" ≠ "")
    (hactive : (activeFloatsFor db user.organisationId
      (body.driverId.getD "")).length > 0) :
    ((user.role = .ops ∨ user.role = .tour_manager) →
      issueFloat user body newFloatId now db = ⟨.error .conflictingActiveFloat, db⟩)
    ∧
    (user.role = .owner →
      (issueFloat user body newFloatId now db).res = .ok newFloatId ∧
      getDoc (issueFloat user body newFloatId now db).db.floats newFloatId
        = some { organisationId := user.organisationId
                 driverId := body.driverId.getD ""
                 tourId := body.tourId
                 originalAmount := q
                 remainingAmount := q
                 active := true
                 issuedBy := user.uid
                 message := if body.message.getD "" = "" then none else body.message
                 closedAt := none
                 createdAt := now
                 updatedAt := now } ∧
      (getDoc db.floats newFloatId = none →
        (∀ id f, (id, f) ∈ db.floats → f.organisationId = user.organisationId →
          f.driverId = body.driverId.getD "" → f.active = true →
          ∀ f', (id, f') ∈ (issueFloat user body newFloatId now db).db.floats →
            f'.active = false ∧ f'.closedAt = some now) ∧
        (∀ id f', (id, f') ∈ (issueFloat user body newFloatId now db).db.floats →
          f'.organisationId = user.organisationId →
          f'.driverId = body.driverId.getD "" → f'.active = true →
          id = newFloatId) ∧
        (issueFloat user body newFloatId now db).db.floats.length
          = db.floats.length + 1)) := by
  have hv : ¬ (body.driverId.getD "" = "" ∨ q ≤ 0) := by
    push_neg
    exact ⟨hdrv, hq⟩
  constructor
  · intro hrole
    have hrr : requireRole user.role [.ops, .owner, .tour_manager] = true := by
      rcases hrole with h | h
      all_goals simp [requireRole, h]
    have hneq : ¬ user.role = .owner := by
      rcases hrole with h | h
      all_goals simp [h]
    simp [issueFloat, hrr, hamt, hv, hactive, hneq]
  · intro hrole
    have hrr : requireRole user.role [.ops, .owner, .tour_manager] = true := by
      simp [requireRole, hrole]
    have hrr2 : requireRole Role.owner [.ops, .owner, .tour_manager] = true := by
      decide
    have hc1 : ¬ ((activeFloatsFor db user.organisationId
        (body.driverId.getD "")).length > 0 ∧ ¬ user.role = .owner) := by
      push_neg
      intro _
      simp [hrole]
    have hc2 : (activeFloatsFor db user.organisationId
        (body.driverId.getD "")).length > 0 ∧ user.role = .owner := ⟨hactive, hrole⟩
    have hfl : (issueFloat user body newFloatId now db).db.floats
        = setDoc (closeAll now db.floats (activeFloatsFor db user.organisationId
            (body.driverId.getD ""))) newFloatId
            { organisationId := user.organisationId
              driverId := body.driverId.getD ""
              tourId := body.tourId
              originalAmount := q
              remainingAmount := q
              active := true
              issuedBy := user.uid
              message := if body.message.getD "" = "" then none else body.message
              closedAt := none
              createdAt := now
              updatedAt := now } := by
      simp [issueFloat, hrr, hrr2, hamt, hv, hc1, hc2, hrole, hactive]
    refine ⟨?_, ?_, ?_⟩
    · simp [issueFloat, hrr, hrr2, hamt, hv, hc1, hc2, hrole, hactive]
    · rw [hfl]
      exact getDoc_setDoc_self _ _ _
    · intro hfresh
      have hcont : containsId (closeAll now db.floats (activeFloatsFor db
          user.organisationId (body.driverId.getD ""))) newFloatId = false := by
        rw [containsId_closeAll]
        exact containsId_false_of_getDoc_none hfresh
      have happ : (issueFloat user body newFloatId now db).db.floats
          = closeAll now db.floats (activeFloatsFor db user.organisationId
              (body.driverId.getD "")) ++
            [(newFloatId,
              { organisationId := user.organisationId
                driverId := body.driverId.getD ""
                tourId := body.tourId
                originalAmount := q
                remainingAmount := q
                active := true
                issuedBy := user.uid
                message := if body.message.getD "" = "" then none else body.message
                closedAt := none
                createdAt := now
                updatedAt := now })] := by
        rw [hfl, setDoc]
        rw [hcont]
        simp
      refine ⟨?_, ?_, ?_⟩
      · intro id f hmem horg hdrv2 hact f' hmem'
        have hne : id ≠ newFloatId := by
          intro he
          rcases getDoc_isSome_of_mem (he ▸ hmem) with ⟨w, hw⟩
          rw [hfresh] at hw
          cases hw
        have htgt : id ∈ (activeFloatsFor db user.organisationId
            (body.driverId.getD "")).map Prod.fst := by
          refine List.mem_map.mpr ⟨(id, f), ?_, rfl⟩
          refine List.mem_filter.mpr ⟨hmem, ?_⟩
          simp [horg, hdrv2, hact]
        rw [happ] at hmem'
        rcases List.mem_append.mp hmem' with hin | hin
        · exact closed_closeAll htgt f' hin
        · exfalso
          rcases List.mem_singleton.mp hin with he
          exact hne (congrArg Prod.fst he)
      · intro id f' hmem' horg' hdrv' hact'
        rw [happ] at hmem'
        rcases List.mem_append.mp hmem' with hin | hin
        · exfalso
          rcases mem_closeAll hin with ⟨w, hw, hcase⟩
          rcases hcase with he | he
          · have htgt : id ∈ (activeFloatsFor db user.organisationId
                (body.driverId.getD "")).map Prod.fst := by
              refine List.mem_map.mpr ⟨(id, w), ?_, rfl⟩
              refine List.mem_filter.mpr ⟨hw, ?_⟩
              rw [← he]
              simp [horg', hdrv', hact']
            have hcl := closed_closeAll htgt f' hin
            rw [hcl.1] at hact'
            cases hact'
          · rw [he] at hact'
            simp [closeFloatPatch] at hact'
        · exact congrArg Prod.fst (List.mem_singleton.mp hin)
      · rw [happ]
        rw [List.length_append, length_closeAll]
        rfl

/-- C7 witness: with the active float `f1` for driver `d1`, an ops call
fails with `ConflictingActiveFloat` unchanged, while an owner call
succeeds, creates the one new active float `f2`, and grows the
collection by exactly one. -/
theorem c7_owner_override_witness :
    issueFloat uops ownerBody "f2" 7 db1 = ⟨.error .conflictingActiveFloat, db1⟩ ∧
    (issueFloat uo ownerBody "f2" 7 db1).res = .ok "f2" ∧
    getDoc (issueFloat uo ownerBody "f2" 7 db1).db.floats "f2"
      = some { organisationId := uo.organisationId
               driverId := ownerBody.driverId.getD ""
               tourId := ownerBody.tourId
               originalAmount := 300
               remainingAmount := 300
               active := true
               issuedBy := uo.uid
               message := if ownerBody.message.getD "" = "" then none
                 else ownerBody.message
               closedAt := none
               createdAt := 7
               updatedAt := 7 } ∧
    (issueFloat uo ownerBody "f2" 7 db1).db.floats.length
      = db1.floats.length + 1 := by
  have hactops : (activeFloatsFor db1 uops.organisationId
      (ownerBody.driverId.getD "")).length > 0 := by
    simp [activeFloatsFor, db1, db0, float1, float0, uops, ownerBody]
  have hactuo : (activeFloatsFor db1 uo.organisationId
      (ownerBody.driverId.getD "")).length > 0 := by
    simp [activeFloatsFor, db1, db0, float1, float0, uo, ownerBody]
  have hfresh : getDoc db1.floats "f2" = none := by
    simp [db1, db0, getDoc]
  have hops := c7_owner_override uops ownerBody "f2" 7 db1 300 rfl (by norm_num)
    (by simp [ownerBody]) hactops
  have how := c7_owner_override uo ownerBody "f2" 7 db1 300 rfl (by norm_num)
    (by simp [ownerBody]) hactuo
  exact ⟨hops.1 (Or.inl rfl), (how.2 rfl).1, (how.2 rfl).2.1,
    ((how.2 rfl).2.2 hfresh).2.2⟩

theorem processTours_length (intervals : Intervals)
    (lastServiceOdos : LastServiceOdos) :
    ∀ (ts : List TourInput) (c : ℚ),
      (processTours intervals lastServiceOdos c ts).length = ts.length := by
  intro ts
  induction ts with
  | nil => intro c; rfl
  | cons t rest ih =>
    intro c
    simp only [processTours, List.length_cons]
    rw [ih]

theorem processTours_get? (intervals : Intervals)
    (lastServiceOdos : LastServiceOdos) :
    ∀ (ts : List TourInput) (c : ℚ) (i : Nat),
      (processTours intervals lastServiceOdos c ts).get? i
        = (ts.get? i).map (fun t =>
            (t.id, mkIndicators intervals lastServiceOdos
              (c + ((ts.take (i + 1)).map estOr0).sum))) := by
  intro ts
  induction ts with
  | nil => intro c i; rfl
  | cons t rest ih =>
    intro c i
    cases i with
    | zero =>
      simp [processTours, List.take, estOr0]
    | succ i =>
      simp only [processTours, List.get?_cons_succ]
      rw [ih]
      cases hr : rest.get? i with
      | none => rfl
      | some t2 =>
        simp only [Option.map_some']
        rw [List.take_succ_cons, List.map_cons, List.sum_cons, add_assoc]

/-- C4: `calculateMaintenanceIndicators` seeds the cumulative distance at
the current odometer and adds each sorted tour's estimated distance
(0 when absent): the record at position `i` of the output keys the
`i`-th sorted tour's id to the four per-category indicators computed at
`cumulative = odometer + Σ (first i+1 sorted estimated distances)`,
where each category's `remainingKm` is `(lastServiceOdo + interval) −
cumulative` (see `mkIndicators`); and the shared color rule is red iff
`remainingKm < 1000` (negative values included), amber iff
`1000 ≤ remainingKm < 5000`, and green iff `remainingKm ≥ 5000`. -/
theorem c4_maintenance_indicators (tours : List TourInput)
    (currentOdometer : ℚ) (intervals : Intervals)
    (lastServiceOdos : LastServiceOdos) :
    (∀ r : ℚ,
      (getIndicatorColor r = .red ↔ r < 1000) ∧
      (getIndicatorColor r = .amber ↔ 1000 ≤ r ∧ r < 5000) ∧
      (getIndicatorColor r = .green ↔ 5000 ≤ r)) ∧
    (calculateMaintenanceIndicators tours currentOdometer intervals
        lastServiceOdos).length
      = (stableSort (fun a b => a.startTime ≤ b.startTime) tours).length ∧
    (∀ i : Nat,
      (calculateMaintenanceIndicators tours currentOdometer intervals
          lastServiceOdos).get? i
        = ((stableSort (fun a b => a.startTime ≤ b.startTime) tours).get? i).map
            (fun t =>
              (t.id, mkIndicators intervals lastServiceOdos
                (currentOdometer +
                  (((stableSort (fun a b => a.startTime ≤ b.startTime)
                    tours).take (i + 1)).map estOr0).sum)))) := by
  refine ⟨?_, ?_, ?_⟩
  · intro r
    unfold getIndicatorColor
    by_cases h1 : r < 0
    · rw [if_pos h1]
      exact ⟨⟨fun _ => by linarith, fun _ => rfl⟩,
        ⟨fun h => Color.noConfusion h,
          fun hp => absurd hp.1 (not_le.mpr (by linarith))⟩,
        ⟨fun h => Color.noConfusion h,
          fun hge => absurd hge (not_le.mpr (by linarith))⟩⟩
    · rw [if_neg h1]
      by_cases h2 : r < 1000
      · rw [if_pos h2]
        exact ⟨⟨fun _ => h2, fun _ => rfl⟩,
          ⟨fun h => Color.noConfusion h, fun hp => absurd hp.1 (not_le.mpr h2)⟩,
          ⟨fun h => Color.noConfusion h,
            fun hge => absurd hge (not_le.mpr (by linarith))⟩⟩
      · rw [if_neg h2]
        by_cases h3 : r < 5000
        · rw [if_pos h3]
          exact ⟨⟨fun h => Color.noConfusion h, fun hlt => absurd hlt h2⟩,
            ⟨fun _ => ⟨le_of_not_lt h2, h3⟩, fun _ => rfl⟩,
            ⟨fun h => Color.noConfusion h, fun hge => absurd hge (not_le.mpr h3)⟩⟩
        · rw [if_neg h3]
          exact ⟨⟨fun h => Color.noConfusion h, fun hlt => absurd hlt h2⟩,
            ⟨fun h => Color.noConfusion h, fun hp => absurd hp.2 h3⟩,
            ⟨fun _ => le_of_not_lt h3, fun _ => rfl⟩⟩
  · unfold calculateMaintenanceIndicators
    rw [processTours_length]
  · intro i
    unfold calculateMaintenanceIndicators
    rw [processTours_get?]

theorem transformResult_key (pf : String → Option ℚ) (r : InspectionResult) :
    (transformResult pf r).key = r.key := by
  unfold transformResult
  by_cases h : r.key = "tyre_tread_depth"
  · rw [if_pos h]
    cases hv : r.value <;> rfl
  · rw [if_neg h]

theorem transformResult_value_false (pf : String → Option ℚ)
    (r : InspectionResult) :
    (transformResult pf r).value = JSVal.bool false ↔
      r.value = JSVal.bool false := by
  unfold transformResult
  by_cases h : r.key = "tyre_tread_depth"
  · rw [if_pos h]
    cases hv : r.value <;> simp [hv]
  · rw [if_neg h]

theorem find?_transform (pf : String → Option ℚ) (k : String) :
    ∀ rs : List InspectionResult,
      (rs.map (transformResult pf)).find? (fun r => r.key = k)
        = (rs.find? (fun r => r.key = k)).map (transformResult pf) := by
  intro rs
  induction rs with
  | nil => rfl
  | cons r rest ih =>
    by_cases h : r.key = k
    · rw [List.map_cons,
        List.find?_cons_of_pos _ (by simp [transformResult_key, h]),
        List.find?_cons_of_pos _ (by simp [h])]
      rfl
    · rw [List.map_cons,
        List.find?_cons_of_neg _ (by simp [transformResult_key, h]),
        List.find?_cons_of_neg _ (by simp [h])]
      exact ih

theorem mem_safetyFailuresOf (template : Template) (pf : String → Option ℚ)
    (rs : List InspectionResult) (item : TemplateItem) :
    item ∈ safetyFailuresOf template (rs.map (transformResult pf)) ↔
      item ∈ template.items ∧ item.safetyCritical = some true ∧
        (rs.find? (fun r => r.key = item.key) = none ∨
          ∃ m, rs.find? (fun r => r.key = item.key) = some m ∧
            m.value = JSVal.bool false) := by
  unfold safetyFailuresOf
  rw [List.mem_filter, List.mem_filter]
  constructor
  · rintro ⟨⟨hmem, hsc⟩, hfail⟩
    refine ⟨hmem, by simpa using hsc, ?_⟩
    rw [find?_transform] at hfail
    cases hf : rs.find? (fun r => r.key = item.key) with
    | none => exact Or.inl rfl
    | some m =>
      rw [hf] at hfail
      simp only [Option.map_some'] at hfail
      exact Or.inr ⟨m, rfl, (transformResult_value_false pf m).mp (by simpa using hfail)⟩
  · rintro ⟨hmem, hsc, hcase⟩
    refine ⟨⟨hmem, by simpa using hsc⟩, ?_⟩
    rw [find?_transform]
    rcases hcase with hf | ⟨m, hf, hval⟩
    · rw [hf]
      rfl
    · rw [hf]
      simp only [Option.map_some']
      simpa using (transformResult_value_false pf m).mpr hval

theorem odoUpdate_issues (pf : String → Option ℚ) (rs : List InspectionResult)
    (vehId : Option String) (now : Nat) (db : DB) :
    (odoUpdate pf rs vehId now db).issues = db.issues := by
  unfold odoUpdate
  repeat' split
  all_goals rfl

theorem odoUpdate_inspections (pf : String → Option ℚ)
    (rs : List InspectionResult) (vehId : Option String) (now : Nat) (db : DB) :
    (odoUpdate pf rs vehId now db).inspections = db.inspections := by
  unfold odoUpdate
  repeat' split
  all_goals rfl

theorem getDoc_modifyDoc_spec {α : Type} (coll : List (String × α))
    (x vid2 : String) (g : α → α) :
    ∃ patch : α → α,
      getDoc (modifyDoc coll x g) vid2 = (getDoc coll vid2).map patch ∧
      (patch = g ∨ patch = id) := by
  by_cases hv : vid2 = x
  · subst hv
    exact ⟨g, getDoc_modifyDoc_self coll vid2 g, Or.inl rfl⟩
  · refine ⟨id, ?_, Or.inr rfl⟩
    rw [getDoc_modifyDoc_ne coll x vid2 g hv]
    simp

theorem odoUpdate_vehicles_spec (pf : String → Option ℚ)
    (rs : List InspectionResult) (vehId : Option String) (now : Nat) (db : DB)
    (vid2 : String) :
    ∃ patch : VehicleDoc → VehicleDoc,
      getDoc (odoUpdate pf rs vehId now db).vehicles vid2
        = (getDoc db.vehicles vid2).map patch ∧
      ∀ w, (patch w).status = w.status ∧
        (patch w).organisationId = w.organisationId := by
  unfold odoUpdate
  split
  · exact ⟨id, by simp, fun w => ⟨rfl, rfl⟩⟩
  split
  · exact ⟨id, by simp, fun w => ⟨rfl, rfl⟩⟩
  split
  · split
    · rcases getDoc_modifyDoc_spec db.vehicles _ vid2 _ with ⟨patch, hp, hcase⟩
      refine ⟨patch, hp, ?_⟩
      intro w
      rcases hcase with he | he
      · rw [he]
        exact ⟨rfl, rfl⟩
      · rw [he]
        exact ⟨rfl, rfl⟩
    · exact ⟨id, by simp, fun w => ⟨rfl, rfl⟩⟩
  · exact ⟨id, by simp, fun w => ⟨rfl, rfl⟩⟩

theorem status_issue_after_odo (pf : String → Option ℚ)
    (rs : List InspectionResult) (vehId : Option String) (now2 : Nat) (db1 : DB)
    (vid : String) (now3 : Nat)
    (hv1 : ∃ w, getDoc db1.vehicles vid = some w) :
    (getDoc (modifyDoc (odoUpdate pf rs vehId now2 db1).vehicles vid
        (fun w => { w with status := VehicleStatusISSUE, updatedAt := now3 }))
      vid).map (fun w => w.status) = some VehicleStatusISSUE := by
  rcases odoUpdate_vehicles_spec pf rs vehId now2 db1 vid with ⟨patch, hp, hpres⟩
  rcases hv1 with ⟨w, hw⟩
  rw [getDoc_modifyDoc_self, hp, hw]
  rfl

/-- C5: a safety-critical template item counts as failing exactly when
its first submitted result is strictly `=== false` or no result with its
key was submitted at all (missing counts as failing, a present
non-boolean value never does); and whenever the failing set is non-empty
and a vehicle is referenced, the submission creates exactly one new
issue with severity `high` whose description lists the failing keys, and
sets the vehicle's status to `issue`; with no failures the issues
collection is untouched. -/
theorem c5_inspection_safety (inspectionTypes : List Template)
    (pf : String → Option ℚ) (user : User) (body : InspectionBody)
    (newIssueId : String) (now : Nat) (db : DB) (template : Template)
    (tourOpt : Option TourDoc) (vehOpt : Option VehicleDoc) (vid : String)
    (v : VehicleDoc)
    (hrole : user.role = .driver)
    (htype : body.type ≠ "")
    (htpl : inspectionTypes.find? (fun t => t.type = body.type) = some template)
    (htour : tourGuard db user body.tourId = .ok tourOpt)
    (hveh : vehicleGuard db user tourOpt body.vehicleId = .ok vehOpt)
    (hvid : body.vehicleId = some vid)
    (hv : getDoc db.vehicles vid = some v)
    (hfresh : getDoc db.issues newIssueId = none) :
    (∀ item,
      item ∈ safetyFailuresOf template (body.results.map (transformResult pf))
        ↔ item ∈ template.items ∧ item.safetyCritical = some true ∧
          (body.results.find? (fun r => r.key = item.key) = none ∨
            ∃ m, body.results.find? (fun r => r.key = item.key) = some m ∧
              m.value = JSVal.bool false)) ∧
    (safetyFailuresOf template (body.results.map (transformResult pf)) ≠ [] →
      (submitInspection inspectionTypes pf user body newIssueId now db).res
        = .ok (body.tourId.getD "no_tour" ++ "_" ++ body.type ++ "_" ++ user.uid) ∧
      (submitInspection inspectionTypes pf user body newIssueId
          now db).db.issues.length
        = db.issues.length + 1 ∧
      getDoc (submitInspection inspectionTypes pf user body newIssueId
          now db).db.issues newIssueId
        = some { organisationId := user.organisationId
                 vehicleId := vid
                 driverId := user.uid
                 tourId := body.tourId
                 severity := "high"
                 description := "Safety critical items failed: " ++
                   String.intercalate ", "
                     ((safetyFailuresOf template
                       (body.results.map (transformResult pf))).map
                         (fun i => i.key))
                 imageUrl := none
                 status := "reported"
                 reportedAt := none
                 createdAt := now
                 updatedAt := now } ∧
      (getDoc (submitInspection inspectionTypes pf user body newIssueId
          now db).db.vehicles vid).map (fun w => w.status)
        = some VehicleStatusISSUE) ∧
    (safetyFailuresOf template (body.results.map (transformResult pf)) = [] →
      (submitInspection inspectionTypes pf user body newIssueId now db).db.issues
        = db.issues) := by
  have hrr : requireRole user.role [.driver] = true := by
    simp [requireRole, hrole]
  have hveh2 : vehicleGuard db user tourOpt (some vid) = .ok vehOpt := by
    rw [← hvid]
    exact hveh
  refine ⟨fun item => mem_safetyFailuresOf template pf body.results item, ?_, ?_⟩
  · intro hne
    have hlen : (safetyFailuresOf template
        (body.results.map (transformResult pf))).length > 0 :=
      List.length_pos.mpr hne
    have hiss : (submitInspection inspectionTypes pf user body newIssueId
        now db).db.issues
        = setDoc db.issues newIssueId
            { organisationId := user.organisationId
              vehicleId := vid
              driverId := user.uid
              tourId := body.tourId
              severity := "high"
              description := "Safety critical items failed: " ++
                String.intercalate ", "
                  ((safetyFailuresOf template
                    (body.results.map (transformResult pf))).map (fun i => i.key))
              imageUrl := none
              status := "reported"
              reportedAt := none
              createdAt := now
              updatedAt := now } := by
      simp [submitInspection, hrr, htype, htpl, htour, hveh, hveh2, hvid, hlen,
        odoUpdate_issues]
    refine ⟨?_, ?_, ?_, ?_⟩
    · simp [submitInspection, hrr, htype, htpl, htour, hveh, hveh2, hvid, hlen]
    · rw [hiss]
      exact length_setDoc_absent db.issues newIssueId _ hfresh
    · rw [hiss]
      exact getDoc_setDoc_self db.issues newIssueId _
    · simp only [submitInspection, hrr, htype, htpl, htour, hveh, hveh2, hvid,
        hlen]
      simp [hlen]
      exact Option.map_eq_some'.mp
        (status_issue_after_odo pf body.results (some vid) now _ vid now ⟨v, hv⟩)
  · intro hempty
    simp [submitInspection, hrr, htype, htpl, htour, hveh, hveh2, hvid, hempty,
      odoUpdate_issues]

/-- C5 witness: an inspection with no submitted results against a
template with one safety-critical item — the missing result counts as
failing, one issue is created, and the vehicle's status becomes
`issue`. -/
theorem c5_inspection_safety_witness :
    (submitInspection [tplBrakes] (fun _ => none) u1 inspBody "i1" 4 dbVeh).res
      = .ok (inspBody.tourId.getD "no_tour" ++ "_" ++ inspBody.type ++ "_" ++
        u1.uid) ∧
    (submitInspection [tplBrakes] (fun _ => none) u1 inspBody "i1" 4
        dbVeh).db.issues.length
      = dbVeh.issues.length + 1 ∧
    (getDoc (submitInspection [tplBrakes] (fun _ => none) u1 inspBody "i1" 4
        dbVeh).db.vehicles "v1").map (fun w => w.status)
      = some VehicleStatusISSUE := by
  have h := c5_inspection_safety [tplBrakes] (fun _ => none) u1 inspBody "i1" 4
    dbVeh tplBrakes none (some vehicle0) "v1" vehicle0 rfl
    (by simp [inspBody])
    (by simp [tplBrakes, inspBody])
    rfl
    (by simp [vehicleGuard, dbVeh, emptyDB, vehicle0, getDoc, u1, inspBody])
    rfl
    (by simp [dbVeh, emptyDB, getDoc])
    rfl
  have hne : safetyFailuresOf tplBrakes
      (inspBody.results.map (transformResult (fun _ => none))) ≠ [] := by
    simp [safetyFailuresOf, tplBrakes, inspBody]
  rcases h.2.1 hne with ⟨h1, h2, h3, h4⟩
  exact ⟨h1, h2, h4⟩

/-- C6: when `updateIssueStatus` sets an issue to `done`, the vehicle is
set back to `ready` exactly when, after the issue's own update, no issue
of the same organisation and vehicle has a status other than `done`; if
at least one open issue remains the vehicles collection is left
untouched. -/
theorem c6_issue_done_vehicle_ready (user : User) (issueId : String)
    (body : IssueStatusBody) (now : Nat) (db : DB) (issue : IssueDoc)
    (v : VehicleDoc)
    (hrole : requireRole user.role [.ops, .owner] = true)
    (hst : body.status = "done")
    (hget : getDoc db.issues issueId = some issue)
    (horg : issue.organisationId = user.organisationId)
    (hv : getDoc db.vehicles issue.vehicleId = some v) :
    (updateIssueStatus user issueId body now db).res = .ok issueId ∧
    ((openIssuesFor (modifyDoc db.issues issueId (issueStatusPatch body now))
        user.organisationId issue.vehicleId).length = 0 →
      getDoc (updateIssueStatus user issueId body now db).db.vehicles
          issue.vehicleId
        = some { v with status := VehicleStatusREADY, updatedAt := now }) ∧
    ((openIssuesFor (modifyDoc db.issues issueId (issueStatusPatch body now))
        user.organisationId issue.vehicleId).length ≠ 0 →
      (updateIssueStatus user issueId body now db).db.vehicles = db.vehicles) := by
  have hallow : allowedIssueStatuses.contains body.status = true := by
    rw [hst]
    decide
  have hmem : body.status ∈ allowedIssueStatuses := by
    rw [hst]
    decide
  have hmem2 : ("done" : String) ∈ allowedIssueStatuses := by
    decide
  refine ⟨?_, ?_, ?_⟩
  · simp [updateIssueStatus, hrole, hallow, hmem, hmem2, hget, horg]
  · intro hopen
    have hopen2 : openIssuesFor (modifyDoc db.issues issueId
        (issueStatusPatch body now)) user.organisationId issue.vehicleId = [] :=
      List.length_eq_zero.mp hopen
    have hvv : (updateIssueStatus user issueId body now db).db.vehicles
        = modifyDoc db.vehicles issue.vehicleId (fun w =>
            { w with status := VehicleStatusREADY, updatedAt := now }) := by
      simp [updateIssueStatus, hrole, hallow, hmem, hmem2, hget, horg, hst, hopen2]
    rw [hvv, getDoc_modifyDoc_self, hv]
    rfl
  · intro hopen
    have hopen2 : ¬ openIssuesFor (modifyDoc db.issues issueId
        (issueStatusPatch body now)) user.organisationId issue.vehicleId = [] := by
      intro he
      exact hopen (by rw [he]; rfl)
    simp [updateIssueStatus, hrole, hallow, hmem, hmem2, hget, horg, hst, hopen2]

theorem c6step1 : updateIssueStatus uo "i1" doneBody 5 dbIss = ⟨.ok "i1", dbIss2⟩ := by
  simp [updateIssueStatus, uo, doneBody, dbIss, dbIss2, emptyDB, issueA, issueB,
    vehicleIss, requireRole, getDoc, modifyDoc, openIssuesFor, issueStatusPatch,
    allowedIssueStatuses]

/-- C6 witness: with two open issues on the vehicle, marking the first
`done` leaves the vehicles collection untouched; marking the second
`done` as well sets the vehicle back to `ready`. -/
theorem c6_issue_done_vehicle_ready_witness :
    (updateIssueStatus uo "i1" doneBody 5 dbIss).db.vehicles = dbIss.vehicles ∧
    getDoc (updateIssueStatus uo "i2" doneBody 6
        (updateIssueStatus uo "i1" doneBody 5 dbIss).db).db.vehicles "v1"
      = some { vehicleIss with status := VehicleStatusREADY, updatedAt := 6 } := by
  have h1 := c6_issue_done_vehicle_ready uo "i1" doneBody 5 dbIss issueA vehicleIss
    (by decide) rfl (by simp [dbIss, emptyDB, getDoc]) rfl
    (by simp [dbIss, emptyDB, getDoc, issueA])
  have hopen1 : (openIssuesFor (modifyDoc dbIss.issues "i1"
      (issueStatusPatch doneBody 5)) uo.organisationId issueA.vehicleId).length
      ≠ 0 := by
    simp [openIssuesFor, modifyDoc, issueStatusPatch, dbIss, emptyDB, issueA,
      issueB, doneBody, uo]
  refine ⟨h1.2.2 hopen1, ?_⟩
  rw [c6step1]
  have h2 := c6_issue_done_vehicle_ready uo "i2" doneBody 6 dbIss2 issueB
    vehicleIss (by decide) rfl (by simp [dbIss2, dbIss, emptyDB, getDoc]) rfl
    (by simp [dbIss2, dbIss, emptyDB, getDoc, issueA, issueB])
  have hopen2 : (openIssuesFor (modifyDoc dbIss2.issues "i2"
      (issueStatusPatch doneBody 6)) uo.organisationId issueB.vehicleId).length
      = 0 := by
    simp [openIssuesFor, modifyDoc, issueStatusPatch, dbIss2, dbIss, emptyDB,
      issueA, issueB, doneBody, uo]
  exact h2.2.1 hopen2

end Boundless
